import Mathlib

/-!
PqxxExecutor: result materialisation, typed accessors, the statement executor,
the native result guard and the transaction coordinator.

A shallow embedding of `src/src/PostgreSQLUtils.cpp`,
`src/src/PostgreSQLQuery.cpp` and `src/src/PostgreSQLConnection.cpp`.

Conventions of the embedding.

* `std::string` is `String`, `std::vector<T>` is `List T`, `int` is `Int`.
  Container sizes are taken below `2^31`, where `static_cast<int>(v.size())`
  is the size itself.
* A nullable pointer `T *` is `Option T`.
* A C++ function that can throw returns `Except StdException _`; the object
  state after the throw is returned next to it.
* libpq is the environment.  The accessors of a `PGresult` are the fields of
  the structure `PGresult`; the calls that talk to the server are the fields
  of `Libpq`, a deterministic transition system over an abstract session
  state.
-/

namespace PqxxExecutor

/-! ## The C++ standard library: `std::stoi`, `std::map` -/

/-- The exceptions `std::stoi` throws; both derive from `std::exception`. -/
inductive StdException where
  | invalid_argument
  | out_of_range
  deriving DecidableEq, Repr

/-- Value of `INT_MAX` for the 32-bit `int`. -/
def INT_MAX : Int := 2147483647

/-- Value of `INT_MIN` for the 32-bit `int`. -/
def INT_MIN : Int := -2147483648

/-- C `isspace` in the "C" locale: space, and the controls `\t \n \v \f \r`. -/
def isspace (c : Char) : Bool :=
  c.toNat == 32 || (9 ≤ c.toNat && c.toNat ≤ 13)

/-- C `isdigit`: the ten ASCII digits. -/
def isdigit (c : Char) : Bool :=
  48 ≤ c.toNat && c.toNat ≤ 57

/-- Value of a run of decimal digits, most significant first, on top of `acc`. -/
def digitsValue : List Char → Nat → Nat
  | [], acc => acc
  | c :: cs, acc => digitsValue cs (acc * 10 + (c.toNat - 48))

/-- After the leading white space: the sign that `strtol` reads (`true` for a
minus) and the text after it. -/
def stoiSign (cs : List Char) : Bool × List Char :=
  match cs with
  | '-' :: t => (true, t)
  | '+' :: t => (false, t)
  | _ => (false, cs)

/-- The run of decimal digits `std::stoi` converts: what follows the leading
white space and the optional sign, up to the first non-digit. -/
def stoiDigits (s : String) : List Char :=
  (stoiSign (s.toList.dropWhile isspace)).2.takeWhile isdigit

/-- The signed value of the digit run of `stoiDigits`. -/
def stoiValue (s : String) : Int :=
  if (stoiSign (s.toList.dropWhile isspace)).1 then
    - (digitsValue (stoiDigits s) 0 : Int)
  else
    (digitsValue (stoiDigits s) 0 : Int)

/-- The call `std::stoi(s)` (base 10, no position out-parameter): `strtol`
skips white space, reads an optional sign and the longest run of digits, and
ignores what follows; `std::invalid_argument` when there is no digit,
`std::out_of_range` when the value does not fit in `int`. -/
def stoi (s : String) : Except StdException Int :=
  if (stoiDigits s).isEmpty then
    .error .invalid_argument
  else if stoiValue s < INT_MIN ∨ INT_MAX < stoiValue s then
    .error .out_of_range
  else
    .ok (stoiValue s)

/-- The type `std::map<std::string, int>`, as the list of its entries (keys are
pairwise distinct). -/
abbrev StdMap := List (String × Int)

/-- The lookup `m.find(k)`: the mapped value, or `none` for `m.end()`. -/
def StdMap.find : StdMap → String → Option Int
  | [], _ => none
  | (k1, v) :: t, k => if k1 = k then some v else StdMap.find t k

/-- The assignment `m[k] = v`: overwrite the entry of `k`, or insert one. -/
def StdMap.assign : StdMap → String → Int → StdMap
  | [], k, v => [(k, v)]
  | (k1, v1) :: t, k, v =>
    if k1 = k then (k, v) :: t else (k1, v1) :: StdMap.assign t k v

/-- The texts for which `std::stoi` is not reached or throws, so that a
numeric accessor answers with the caller's default: the empty text, the text
"NULL", a text with no decimal digit after the optional white space and sign,
and a text whose digit run denotes a value outside `int`. -/
def StoiRejects (s : String) : Prop :=
  s = "" ∨ s = "NULL" ∨ stoiDigits s = [] ∨
    (stoiValue s < INT_MIN ∨ INT_MAX < stoiValue s)

/-- From the words of the spec: a text is numeric when it is an optionally
signed decimal integer literal that fits in `int`, that is a sign or none,
then one digit or more, and nothing else. -/
def isIntLiteral (s : String) : Bool :=
  !(stoiSign s.toList).2.isEmpty && (stoiSign s.toList).2.all isdigit &&
    decide (INT_MIN ≤ stoiValue s) && decide (stoiValue s ≤ INT_MAX)

/-! ## Row View: `ResultRow` -/

/-- Class `ResultRow` (PostgreSQLUtils.h): the private members. -/
structure ResultRow where
  values : List String
  columns : List String
  columnIndexMap : StdMap
  deriving DecidableEq, Repr

namespace ResultRow

/-- Default constructor `ResultRow()`. -/
def empty : ResultRow :=
  { values := [], columns := [], columnIndexMap := [] }

/-- The constructor's loop `for (i = 0; i < columns.size(); ++i)
columnIndexMap[columns[i]] = static_cast<int>(i)`, from index `i` on. -/
def indexLoop : List String → Int → StdMap → StdMap
  | [], _, m => m
  | c :: cs, i, m => indexLoop cs (i + 1) (m.assign c i)

/-- Constructor `ResultRow(colNames, rowValues)`. -/
def make (colNames rowValues : List String) : ResultRow :=
  { values := rowValues, columns := colNames,
    columnIndexMap := indexLoop colNames 0 [] }

/-- Overload `getString(const std::string &columnName, defaultValue)`. -/
def getString (self : ResultRow) (columnName : String) (defaultValue : String) :
    String :=
  match self.columnIndexMap.find columnName with
  | some second =>
    if second < (self.values.length : Int) then
      self.values.getD second.toNat defaultValue
    else defaultValue
  | none => defaultValue

/-- Overload `getString(int columnIndex, defaultValue)`. -/
def getStringAt (self : ResultRow) (columnIndex : Int) (defaultValue : String) :
    String :=
  if 0 ≤ columnIndex ∧ columnIndex < (self.values.length : Int) then
    self.values.getD columnIndex.toNat defaultValue
  else defaultValue

/-- The body shared by both `getInt` overloads, on the text that `getString`
returned: the empty/"NULL" test, then `std::stoi` inside
`try ... catch (const std::exception &)`. -/
def intOfText (value : String) (defaultValue : Int) : Except StdException Int :=
  if value.isEmpty || value == "NULL" then
    .ok defaultValue
  else
    match stoi value with
    | .ok v => .ok v
    | .error _ => .ok defaultValue

/-- Overload `getInt(const std::string &columnName, int defaultValue)`. -/
def getInt (self : ResultRow) (columnName : String) (defaultValue : Int) :
    Except StdException Int :=
  intOfText (self.getString columnName "") defaultValue

/-- Overload `getInt(int columnIndex, int defaultValue)`. -/
def getIntAt (self : ResultRow) (columnIndex : Int) (defaultValue : Int) :
    Except StdException Int :=
  intOfText (self.getStringAt columnIndex "") defaultValue

/-- The body shared by both `getBool` overloads, on the text that `getString`
returned. -/
def boolOfText (value : String) (defaultValue : Bool) : Bool :=
  if value == "t" || value == "true" || value == "1" || value == "yes" then
    true
  else if value == "f" || value == "false" || value == "0" || value == "no" then
    false
  else defaultValue

/-- Overload `getBool(const std::string &columnName, bool defaultValue)`. -/
def getBool (self : ResultRow) (columnName : String) (defaultValue : Bool) : Bool :=
  boolOfText (self.getString columnName "") defaultValue

/-- Overload `getBool(int columnIndex, bool defaultValue)`. -/
def getBoolAt (self : ResultRow) (columnIndex : Int) (defaultValue : Bool) : Bool :=
  boolOfText (self.getStringAt columnIndex "") defaultValue

/-- Overload `isNull(const std::string &columnName)`. -/
def isNull (self : ResultRow) (columnName : String) : Bool :=
  (self.getString columnName "").isEmpty || self.getString columnName "" == "NULL"

/-- Overload `isNull(int columnIndex)`. -/
def isNullAt (self : ResultRow) (columnIndex : Int) : Bool :=
  (self.getStringAt columnIndex "").isEmpty || self.getStringAt columnIndex "" == "NULL"

/-- Method `getColumnCount()`. -/
def getColumnCount (self : ResultRow) : Int := self.values.length

/-- Method `getValues()`. -/
def getValues (self : ResultRow) : List String := self.values

/-- Method `getColumns()`. -/
def getColumns (self : ResultRow) : List String := self.columns

end ResultRow

/-! ## libpq results: `PGresult` and its accessors -/

/-- Enumeration `ExecStatusType` of libpq-fe.h. -/
inductive ExecStatusType where
  | PGRES_EMPTY_QUERY
  | PGRES_COMMAND_OK
  | PGRES_TUPLES_OK
  | PGRES_COPY_OUT
  | PGRES_COPY_IN
  | PGRES_BAD_RESPONSE
  | PGRES_NONFATAL_ERROR
  | PGRES_FATAL_ERROR
  | PGRES_COPY_BOTH
  | PGRES_SINGLE_TUPLE
  | PGRES_PIPELINE_SYNC
  | PGRES_PIPELINE_ABORTED
  deriving DecidableEq, Repr

/-- What libpq's accessors report about one native result (`PGresult`, reached
through a non-null pointer).  `getvalue row col` and `cmdTuples` are `char *`
values, hence nullable; libpq returns the empty string, not a null pointer,
for a field that is SQL NULL. -/
structure PGresult where
  resultStatus : ExecStatusType
  ntuples : Nat
  nfields : Nat
  fname : Nat → String
  getvalue : Nat → Nat → Option String
  cmdTuples : Option String

/-- libpq `PQresultStatus`; a null pointer reads as `PGRES_FATAL_ERROR`. -/
def PQresultStatus (result : Option PGresult) : ExecStatusType :=
  match result with
  | some r => r.resultStatus
  | none => .PGRES_FATAL_ERROR

/-- libpq `PQresStatus`: the name of a status. -/
def PQresStatus (status : ExecStatusType) : String :=
  match status with
  | .PGRES_EMPTY_QUERY => "PGRES_EMPTY_QUERY"
  | .PGRES_COMMAND_OK => "PGRES_COMMAND_OK"
  | .PGRES_TUPLES_OK => "PGRES_TUPLES_OK"
  | .PGRES_COPY_OUT => "PGRES_COPY_OUT"
  | .PGRES_COPY_IN => "PGRES_COPY_IN"
  | .PGRES_BAD_RESPONSE => "PGRES_BAD_RESPONSE"
  | .PGRES_NONFATAL_ERROR => "PGRES_NONFATAL_ERROR"
  | .PGRES_FATAL_ERROR => "PGRES_FATAL_ERROR"
  | .PGRES_COPY_BOTH => "PGRES_COPY_BOTH"
  | .PGRES_SINGLE_TUPLE => "PGRES_SINGLE_TUPLE"
  | .PGRES_PIPELINE_SYNC => "PGRES_PIPELINE_SYNC"
  | .PGRES_PIPELINE_ABORTED => "PGRES_PIPELINE_ABORTED"

/-- libpq `PQntuples`; 0 for a null pointer. -/
def PQntuples (result : Option PGresult) : Nat :=
  match result with
  | some r => r.ntuples
  | none => 0

/-- libpq `PQnfields`; 0 for a null pointer. -/
def PQnfields (result : Option PGresult) : Nat :=
  match result with
  | some r => r.nfields
  | none => 0

/-- libpq `PQfname` at a column number in range. -/
def PQfname (result : Option PGresult) (i : Nat) : String :=
  match result with
  | some r => r.fname i
  | none => ""

/-- libpq `PQgetvalue` at a row and column in range. -/
def PQgetvalue (result : Option PGresult) (row col : Nat) : Option String :=
  match result with
  | some r => r.getvalue row col
  | none => none

/-- libpq `PQcmdTuples`. -/
def PQcmdTuples (result : Option PGresult) : Option String :=
  match result with
  | some r => r.cmdTuples
  | none => some ""

/-! ## `PostgreSQLUtils`: the static helpers on a native result -/

/-- Helper `PostgreSQLUtils::isResultValid`. -/
def isResultValid (result : Option PGresult) : Bool :=
  result.isSome && (PQresultStatus result == .PGRES_TUPLES_OK ||
                    PQresultStatus result == .PGRES_COMMAND_OK)

/-- Helper `PostgreSQLUtils::getColumnNames`. -/
def getColumnNames (result : Option PGresult) : List String :=
  if !isResultValid result then []
  else (List.range (PQnfields result)).map fun i => PQfname result i

/-- Helper `PostgreSQLUtils::getRowCount`. -/
def getRowCount (result : Option PGresult) : Nat :=
  if isResultValid result then PQntuples result else 0

/-- Helper `PostgreSQLUtils::getColumnCount`. -/
def getColumnCount (result : Option PGresult) : Nat :=
  if isResultValid result then PQnfields result else 0

/-- Helper `PostgreSQLUtils::getValue(result, row, col, defaultValue)`. -/
def getValue (result : Option PGresult) (row col : Int) (defaultValue : String) :
    String :=
  if !isResultValid result || row < 0 || row ≥ (getRowCount result : Int) ||
      col < 0 || col ≥ (getColumnCount result : Int) then
    defaultValue
  else
    match PQgetvalue result row.toNat col.toNat with
    | some value => value
    | none => defaultValue

/-- Helper `PostgreSQLUtils::resultStatusToString`. -/
def resultStatusToString (status : ExecStatusType) : String :=
  PQresStatus status

/-! ## Result Set: `QueryResult` -/

/-- Class `QueryResult` (PostgreSQLUtils.h): the private members. -/
structure QueryResult where
  rows : List ResultRow
  columnNames : List String
  affectedRows : Int
  errorMessage : String
  deriving DecidableEq, Repr

namespace QueryResult

/-- Default constructor `QueryResult()`. -/
def fresh : QueryResult :=
  { rows := [], columnNames := [], affectedRows := 0, errorMessage := "" }

/-- Method `clear()`. -/
def clear (self : QueryResult) : QueryResult :=
  { self with rows := [], columnNames := [], affectedRows := 0, errorMessage := "" }

/-- Method `setErrorMessage(error)`. -/
def setErrorMessage (self : QueryResult) (error : String) : QueryResult :=
  { self with errorMessage := error }

/-- The row that the inner loop of `loadFromResult` assembles for row `i`:
`getValue(result, i, j)` for `j` in `[0, colCount)`, default argument `""`. -/
def rowValues (result : Option PGresult) (colCount : Nat) (i : Nat) : List String :=
  (List.range colCount).map fun (j : Nat) => getValue result (i : Int) (j : Int) ""

/-- Method `loadFromResult(result)`: the outcome (`true`/`false`, or the
exception that leaves it) and the object afterwards. -/
def loadFromResult (self : QueryResult) (result : Option PGresult) :
    Except StdException Bool × QueryResult :=
  let self := self.clear
  if !isResultValid result then
    (.ok false, { self with errorMessage := "Invalid result" })
  else
    let status := PQresultStatus result
    if status = .PGRES_TUPLES_OK then
      let columnNames := getColumnNames result
      let rowCount := getRowCount result
      let colCount := getColumnCount result
      (.ok true,
        { self with
          columnNames := columnNames
          rows := self.rows ++
            (List.range rowCount).map fun i =>
              ResultRow.make columnNames (rowValues result colCount i)
          affectedRows := (rowCount : Int) })
    else if status = .PGRES_COMMAND_OK then
      match PQcmdTuples result with
      | some affected =>
        match stoi affected with
        | .ok v => (.ok true, { self with affectedRows := v })
        | .error e => (.error e, self)
      | none => (.ok true, self)
    else
      (.ok false, { self with errorMessage := resultStatusToString status })

/-- Method `getRowCount()`. -/
def getRowCount (self : QueryResult) : Nat := self.rows.length

/-- Method `getColumnCount()`. -/
def getColumnCount (self : QueryResult) : Nat := self.columnNames.length

/-- Method `getAffectedRows()`. -/
def getAffectedRows (self : QueryResult) : Int := self.affectedRows

/-- Method `getAllRows()`. -/
def getAllRows (self : QueryResult) : List ResultRow := self.rows

/-- Method `getColumnNames()`. -/
def getColumnNames (self : QueryResult) : List String := self.columnNames

/-- Method `hasData()`. -/
def hasData (self : QueryResult) : Bool := !self.rows.isEmpty

/-- Method `hasError()`. -/
def hasError (self : QueryResult) : Bool := !self.errorMessage.isEmpty

/-- Method `getErrorMessage()`. -/
def getErrorMessage (self : QueryResult) : String := self.errorMessage

/-- The Result Set invariant of the data model: a non-empty error message
comes with an empty row list and an empty column-name list. -/
def Invariant (self : QueryResult) : Prop :=
  self.errorMessage ≠ "" → self.rows = [] ∧ self.columnNames = []

end QueryResult

/-! ## Sample native results -/

/-- The native result of `CREATE TABLE t(id INT)`: status command-OK, and
`PQcmdTuples` is the empty string, as libpq documents for a command that is
not INSERT, UPDATE, DELETE, MERGE, MOVE, FETCH, COPY or SELECT. -/
def createTableResult : PGresult :=
  { resultStatus := .PGRES_COMMAND_OK, ntuples := 0, nfields := 0,
    fname := fun _ => "", getvalue := fun _ _ => none, cmdTuples := some "" }

/-- The native result of `INSERT INTO t VALUES (5), (6), (7)`: command-OK with
the count "3". -/
def insertThreeResult : PGresult :=
  { resultStatus := .PGRES_COMMAND_OK, ntuples := 0, nfields := 0,
    fname := fun _ => "", getvalue := fun _ _ => none, cmdTuples := some "3" }

/-- A command-OK native result whose count string is not a number. -/
def oddCountResult : PGresult :=
  { resultStatus := .PGRES_COMMAND_OK, ntuples := 0, nfields := 0,
    fname := fun _ => "", getvalue := fun _ _ => none, cmdTuples := some "many" }

/-- The native result of a statement the server rejects (a malformed statement, a
violated constraint): status fatal-error, no tuples. -/
def fatalErrorResult : PGresult :=
  { resultStatus := .PGRES_FATAL_ERROR, ntuples := 0, nfields := 0,
    fname := fun _ => "", getvalue := fun _ _ => none, cmdTuples := some "" }

/-- The native result of `SELECT id, name FROM users` with the two rows
`(1, Ann)` and `(2, Bob)`. -/
def usersResult : PGresult :=
  { resultStatus := .PGRES_TUPLES_OK, ntuples := 2, nfields := 2,
    fname := fun j => if j = 0 then "id" else "name",
    getvalue := fun i j =>
      some (if i = 0 then (if j = 0 then "1" else "Ann")
            else (if j = 0 then "2" else "Bob")),
    cmdTuples := some "2" }

/-- The native result of a SELECT with one row and two text columns, `a`
being SQL NULL and `b` the empty text: `PQgetvalue` is the empty string for
the NULL field and for the empty text alike. -/
def nullAndEmptyResult : PGresult :=
  { resultStatus := .PGRES_TUPLES_OK, ntuples := 1, nfields := 2,
    fname := fun j => if j = 0 then "a" else "b",
    getvalue := fun _ _ => some "",
    cmdTuples := some "1" }

/-! ## The session: libpq calls that reach the server -/

/-- Enumeration `ConnStatusType` of libpq-fe.h. -/
inductive ConnStatusType where
  | CONNECTION_OK
  | CONNECTION_BAD
  | CONNECTION_STARTED
  | CONNECTION_MADE
  | CONNECTION_AWAITING_RESPONSE
  | CONNECTION_AUTH_OK
  | CONNECTION_SETENV
  | CONNECTION_SSL_STARTUP
  | CONNECTION_NEEDED
  deriving DecidableEq, Repr

/-- The behaviour of libpq together with the server behind it, over a session
state `σ` (everything a `PGconn` stands for: the client-side connection object,
the socket, the server).  A call that executes a statement returns the native
result pointer and the next session state.

The `_ok` laws are libpq's contract for its blocking calls: the client-side
status changes only while a call does I/O, and a call that loses the
connection reports it in the result it returns, so a result with a success
status comes from a connection that is still `CONNECTION_OK`.

`PQexecParams` is the call at a value array of non-null C strings, as the
callers that own their parameters as `std::string` make it;
`PQexecParamsNullable` is the same libpq function at a value array that may
hold null pointers (SQL NULL), as a caller with `const char *` values can
make it, and `execParams_nullable` says that they are one function. -/
structure Libpq (σ : Type) where
  PQstatus : σ → ConnStatusType
  PQexec : σ → String → Option PGresult × σ
  PQexecParams : σ → String → List String → Option PGresult × σ
  exec_ok : ∀ s q, isResultValid (PQexec s q).1 = true →
    PQstatus (PQexec s q).2 = .CONNECTION_OK
  execParams_ok : ∀ s q ps, isResultValid (PQexecParams s q ps).1 = true →
    PQstatus (PQexecParams s q ps).2 = .CONNECTION_OK
  PQexecParamsNullable : σ → String → List (Option String) → Option PGresult × σ
  PQexecPrepared : σ → String → List String → Option PGresult × σ
  PQerrorMessage : σ → String
  execParams_nullable : ∀ s q ps,
    PQexecParamsNullable s q (ps.map some) = PQexecParams s q ps
  execPrepared_ok : ∀ s n ps, isResultValid (PQexecPrepared s n ps).1 = true →
    PQstatus (PQexecPrepared s n ps).2 = .CONNECTION_OK

/-- A statement as it goes to the server: through `PQexec` (text only),
through `PQexecParams` (text and the textual parameter values, non-null or
nullable), or through `PQexecPrepared` (statement name and parameter values). -/
inductive Stmt where
  | exec (text : String)
  | execParams (text : String) (params : List String)
  | execParamsNullable (text : String) (params : List (Option String))
  | execPrepared (stmtName : String) (params : List String)
  deriving DecidableEq, Repr

/-- Class `PostgreSQLConnection`: the private member `PGconn *connection`; a
non-null pointer stands for the session in its current state. -/
structure PostgreSQLConnection (σ : Type) where
  connection : Option σ

/-- The connection handle that a call borrows, with two history variables:
the statements sent to the server so far, oldest first, and the number of
native results released with `PQclear`. -/
structure World (σ : Type) where
  conn : PostgreSQLConnection σ
  sent : List Stmt
  cleared : Nat

variable {σ : Type}

/-- Method `PostgreSQLConnection::isOK()`. -/
def PostgreSQLConnection.isOK (L : Libpq σ) (self : PostgreSQLConnection σ) : Bool :=
  match self.connection with
  | some s => L.PQstatus s == .CONNECTION_OK
  | none => false

namespace World

/-- The call `PQexec(connection, query)` on the handle's raw pointer; libpq
returns a null result for a null connection pointer. -/
def PQexec (L : Libpq σ) (w : World σ) (query : String) : Option PGresult × World σ :=
  match w.conn.connection with
  | some s =>
    ((L.PQexec s query).1,
      { w with conn := { connection := some (L.PQexec s query).2 }
               sent := w.sent ++ [Stmt.exec query] })
  | none => (none, w)

/-- The call `PQexecParams(connection, query, params.size(), nullptr, values,
nullptr, nullptr, 0)` on the handle's raw pointer. -/
def PQexecParams (L : Libpq σ) (w : World σ) (query : String) (params : List String) :
    Option PGresult × World σ :=
  match w.conn.connection with
  | some s =>
    ((L.PQexecParams s query params).1,
      { w with conn := { connection := some (L.PQexecParams s query params).2 }
               sent := w.sent ++ [Stmt.execParams query params] })
  | none => (none, w)

/-- The call `PQclear(result)`: releases a native result; a null pointer is
ignored. -/
def PQclear (w : World σ) (result : Option PGresult) : World σ :=
  if result.isSome then { w with cleared := w.cleared + 1 } else w

/-- The body shared by `beginTransaction`, `commitTransaction` and
`rollbackTransaction`, which differ in the statement text only. -/
def control (L : Libpq σ) (w : World σ) (text : String) : Bool × World σ :=
  if !w.conn.isOK L then (false, w)
  else
    let success := PQresultStatus (w.PQexec L text).1 == .PGRES_COMMAND_OK
    (success, (w.PQexec L text).2.PQclear (w.PQexec L text).1)

/-- Method `PostgreSQLConnection::beginTransaction()`. -/
def beginTransaction (L : Libpq σ) (w : World σ) : Bool × World σ :=
  w.control L "BEGIN"

/-- Method `PostgreSQLConnection::commitTransaction()`. -/
def commitTransaction (L : Libpq σ) (w : World σ) : Bool × World σ :=
  w.control L "COMMIT"

/-- Method `PostgreSQLConnection::rollbackTransaction()`. -/
def rollbackTransaction (L : Libpq σ) (w : World σ) : Bool × World σ :=
  w.control L "ROLLBACK"

end World

/-! ## `PostgreSQLUtils`: statement execution and the transaction coordinator -/

/-- Function `PostgreSQLUtils::executeQuery`.  When `loadFromResult` throws,
the exception leaves the function before `PQclear` is reached. -/
def executeQuery (L : Libpq σ) (w : World σ) (query : String) :
    Except StdException QueryResult × World σ :=
  if !w.conn.isOK L then
    (.ok (QueryResult.fresh.setErrorMessage "Connection is not established"), w)
  else
    match QueryResult.fresh.loadFromResult (w.PQexec L query).1 with
    | (.error e, _) => (.error e, (w.PQexec L query).2)
    | (.ok _, result) =>
      (.ok result, (w.PQexec L query).2.PQclear (w.PQexec L query).1)

/-- Function `PostgreSQLUtils::executeQueryParams`. -/
def executeQueryParams (L : Libpq σ) (w : World σ) (query : String)
    (params : List String) : Except StdException QueryResult × World σ :=
  if !w.conn.isOK L then
    (.ok (QueryResult.fresh.setErrorMessage "Connection is not established"), w)
  else
    match QueryResult.fresh.loadFromResult (w.PQexecParams L query params).1 with
    | (.error e, _) => (.error e, (w.PQexecParams L query params).2)
    | (.ok _, result) =>
      (.ok result,
        (w.PQexecParams L query params).2.PQclear (w.PQexecParams L query params).1)

/-- The `try` block of `executeTransaction`: the loop over the remaining
statements, then `commitTransaction`. -/
def executeTransactionBody (L : Libpq σ) :
    World σ → List String → Except StdException Bool × World σ
  | w, [] =>
    (.ok (w.commitTransaction L).1, (w.commitTransaction L).2)
  | w, query :: rest =>
    match executeQuery L w query with
    | (.error e, w1) => (.error e, w1)
    | (.ok result, w1) =>
      if result.hasError then (.ok false, (w1.rollbackTransaction L).2)
      else executeTransactionBody L w1 rest

/-- Function `PostgreSQLUtils::executeTransaction`: the returned boolean, or
the exception that `catch (...)` re-throws after `rollbackTransaction`. -/
def executeTransaction (L : Libpq σ) (w : World σ) (queries : List String) :
    Except StdException Bool × World σ :=
  if !(w.beginTransaction L).1 then (.ok false, (w.beginTransaction L).2)
  else
    match executeTransactionBody L (w.beginTransaction L).2 queries with
    | (.error e, w1) => (.error e, (w1.rollbackTransaction L).2)
    | (.ok b, w1) => (.ok b, w1)

/-- The `try` block of `executeBatch`: the loop over the remaining parameter
sets, then `commitTransaction`. -/
def executeBatchBody (L : Libpq σ) (baseQuery : String) :
    World σ → List (List String) → Except StdException Bool × World σ
  | w, [] =>
    (.ok (w.commitTransaction L).1, (w.commitTransaction L).2)
  | w, params :: rest =>
    match executeQueryParams L w baseQuery params with
    | (.error e, w1) => (.error e, w1)
    | (.ok result, w1) =>
      if result.hasError then (.ok false, (w1.rollbackTransaction L).2)
      else executeBatchBody L baseQuery w1 rest

/-- Function `PostgreSQLUtils::executeBatch`. -/
def executeBatch (L : Libpq σ) (w : World σ) (baseQuery : String)
    (paramsList : List (List String)) : Except StdException Bool × World σ :=
  if !(w.beginTransaction L).1 then (.ok false, (w.beginTransaction L).2)
  else
    match executeBatchBody L baseQuery (w.beginTransaction L).2 paramsList with
    | (.error e, w1) => (.error e, (w1.rollbackTransaction L).2)
    | (.ok b, w1) => (.ok b, w1)

/-! ## A sample server -/

/-- The reply of the sample server to a statement sent with `PQexec`. -/
def sampleReply (query : String) : Option PGresult :=
  if query = "BEGIN" ∨ query = "COMMIT" ∨ query = "ROLLBACK" then
    some createTableResult
  else if query = "INSERT INTO t VALUES (5), (6), (7)" then some insertThreeResult
  else if query = "SELECT id, name FROM users" then some usersResult
  else if query = "CREATE TABLE t(id INT)" then some createTableResult
  else some fatalErrorResult

/-- The reply of the sample server to a statement sent with `PQexecParams`:
the two-parameter INSERT succeeds with one row, CREATE TABLE without
parameters succeeds, everything else is rejected. -/
def sampleReplyParams (query : String) (params : List String) : Option PGresult :=
  if query = "INSERT INTO users VALUES ($1, $2)" ∧ params.length = 2 then
    some { insertThreeResult with cmdTuples := some "1" }
  else if query = "CREATE TABLE t(id INT)" ∧ params = [] then some createTableResult
  else some fatalErrorResult

/-- The reply of the sample server to a statement sent with `PQexecParams`
at nullable values: as `sampleReplyParams`. -/
def sampleReplyNullable (query : String) (params : List (Option String)) :
    Option PGresult :=
  if query = "INSERT INTO users VALUES ($1, $2)" ∧ params.length = 2 then
    some { insertThreeResult with cmdTuples := some "1" }
  else if query = "CREATE TABLE t(id INT)" ∧ params = [] then some createTableResult
  else some fatalErrorResult

/-- The reply of the sample server to `PQexecPrepared`: the statement prepared
under the name `all_users` returns the two users, any other name is unknown. -/
def sampleReplyPrepared (stmtName : String) (params : List String) : Option PGresult :=
  if stmtName = "all_users" ∧ params = [] then some usersResult
  else some fatalErrorResult

/-- A sample session whose state `n` is the number of statements until the
connection is lost: the server answers the next `n - 1` statements, the
connection breaks while statement `n` runs (libpq returns a fatal-error result
and the status turns `CONNECTION_BAD`), and nothing is answered at 0. -/
def sampleServer : Libpq Nat where
  PQstatus n := if n = 0 then .CONNECTION_BAD else .CONNECTION_OK
  PQexec n query :=
    match n with
    | 0 => (none, 0)
    | 1 => (some fatalErrorResult, 0)
    | m + 2 => (sampleReply query, m + 1)
  PQexecParams n query params :=
    match n with
    | 0 => (none, 0)
    | 1 => (some fatalErrorResult, 0)
    | m + 2 => (sampleReplyParams query params, m + 1)
  exec_ok := by
    intro n q h
    match n with
    | 0 => simp [isResultValid] at h
    | 1 => simp [isResultValid, PQresultStatus, fatalErrorResult] at h
    | m + 2 => simp
  execParams_ok := by
    intro n q ps h
    match n with
    | 0 => simp [isResultValid] at h
    | 1 => simp [isResultValid, PQresultStatus, fatalErrorResult] at h
    | m + 2 => simp
  PQexecParamsNullable n query params :=
    match n with
    | 0 => (none, 0)
    | 1 => (some fatalErrorResult, 0)
    | m + 2 => (sampleReplyNullable query params, m + 1)
  PQexecPrepared n stmtName params :=
    match n with
    | 0 => (none, 0)
    | 1 => (some fatalErrorResult, 0)
    | m + 2 => (sampleReplyPrepared stmtName params, m + 1)
  PQerrorMessage n := if n = 0 then "server closed the connection unexpectedly" else ""
  execParams_nullable := by
    intro n q ps
    match n with
    | 0 => rfl
    | 1 => rfl
    | m + 2 => simp [sampleReplyNullable, sampleReplyParams]
  execPrepared_ok := by
    intro n q ps h
    match n with
    | 0 => simp [isResultValid] at h
    | 1 => simp [isResultValid, PQresultStatus, fatalErrorResult] at h
    | m + 2 => simp

/-- A handle on the sample session in state `n`, nothing sent or released yet. -/
def sampleWorld (n : Nat) : World Nat :=
  { conn := { connection := some n }, sent := [], cleared := 0 }

/-! ## Observations used to state the transaction claims -/

/-- Running the statements of a list in order with `executeQuery`, each one
completing without an exception and without an error message: the world after
the last one, or `none` as soon as one raises or carries an error message. -/
def queriesSucceed (L : Libpq σ) : World σ → List String → Option (World σ)
  | w, [] => some w
  | w, query :: rest =>
    match executeQuery L w query with
    | (.ok result, w1) =>
      if result.hasError then none else queriesSucceed L w1 rest
    | (.error _, _) => none

/-- Running the parameter sets of a list in order with `executeQueryParams`
on one base statement, each one completing without an exception and without an
error message: the world after the last one, or `none`. -/
def batchSucceeds (L : Libpq σ) (baseQuery : String) :
    World σ → List (List String) → Option (World σ)
  | w, [] => some w
  | w, params :: rest =>
    match executeQueryParams L w baseQuery params with
    | (.ok result, w1) =>
      if result.hasError then none else batchSucceeds L baseQuery w1 rest
    | (.error _, _) => none


/-! ## Statement Executor: `PostgreSQLQuery`

The class holds a reference to the connection handle; its methods are
functions of the `World` that holds the handle.  The diagnostics that the
methods write to `std::cerr` are not part of the model. -/

/-- The call `PQexecParams(rawConn, query, params.size(), nullptr, values,
nullptr, nullptr, 0)` at `const char *` values, which may be null. -/
def World.PQexecParamsNullable (L : Libpq σ) (w : World σ) (query : String)
    (params : List (Option String)) : Option PGresult × World σ :=
  match w.conn.connection with
  | some s =>
    ((L.PQexecParamsNullable s query params).1,
      { w with conn := { connection := some (L.PQexecParamsNullable s query params).2 }
               sent := w.sent ++ [Stmt.execParamsNullable query params] })
  | none => (none, w)

/-- The call `PQexecPrepared(rawConn, stmtName, params.size(), values, nullptr,
nullptr, 0)` on the handle's raw pointer. -/
def World.PQexecPrepared (L : Libpq σ) (w : World σ) (stmtName : String)
    (params : List String) : Option PGresult × World σ :=
  match w.conn.connection with
  | some s =>
    ((L.PQexecPrepared s stmtName params).1,
      { w with conn := { connection := some (L.PQexecPrepared s stmtName params).2 }
               sent := w.sent ++ [Stmt.execPrepared stmtName params] })
  | none => (none, w)

namespace PostgreSQLQuery

/-- Method `PostgreSQLQuery::isConnectionOK()`. -/
def isConnectionOK (L : Libpq σ) (w : World σ) : Bool :=
  w.conn.isOK L

/-- Method `PostgreSQLQuery::execute(query)`: the returned pointer (`none` is
the empty-result signal `nullptr`) and the world afterwards. -/
def execute (L : Libpq σ) (w : World σ) (query : String) : Option PGresult × World σ :=
  if !isConnectionOK L w then (none, w)
  else if query.isEmpty then (none, w)
  else
    let status := PQresultStatus (w.PQexec L query).1
    if status != .PGRES_COMMAND_OK && status != .PGRES_TUPLES_OK then
      (none, (w.PQexec L query).2.PQclear (w.PQexec L query).1)
    else
      ((w.PQexec L query).1, (w.PQexec L query).2)

/-- Overload `executeParams(query, const std::vector<std::string> &params)`. -/
def executeParams (L : Libpq σ) (w : World σ) (query : String) (params : List String) :
    Option PGresult × World σ :=
  if !isConnectionOK L w then (none, w)
  else if query.isEmpty then (none, w)
  else
    let status := PQresultStatus (w.PQexecParams L query params).1
    if status != .PGRES_COMMAND_OK && status != .PGRES_TUPLES_OK then
      (none, (w.PQexecParams L query params).2.PQclear (w.PQexecParams L query params).1)
    else
      ((w.PQexecParams L query params).1, (w.PQexecParams L query params).2)

/-- Overload `executeParams(query, const std::vector<const char *> &params)`:
the borrowed-pointer parameters; there is no test of the statement text. -/
def executeParamsBorrowed (L : Libpq σ) (w : World σ) (query : String)
    (params : List (Option String)) : Option PGresult × World σ :=
  if !isConnectionOK L w then (none, w)
  else
    let status := PQresultStatus (w.PQexecParamsNullable L query params).1
    if status != .PGRES_COMMAND_OK && status != .PGRES_TUPLES_OK then
      (none, (w.PQexecParamsNullable L query params).2.PQclear
        (w.PQexecParamsNullable L query params).1)
    else
      ((w.PQexecParamsNullable L query params).1,
        (w.PQexecParamsNullable L query params).2)

/-- Method `executePrepared(stmtName, params)`; there is no test of the
statement name. -/
def executePrepared (L : Libpq σ) (w : World σ) (stmtName : String)
    (params : List String) : Option PGresult × World σ :=
  if !isConnectionOK L w then (none, w)
  else
    let status := PQresultStatus (w.PQexecPrepared L stmtName params).1
    if status != .PGRES_COMMAND_OK && status != .PGRES_TUPLES_OK then
      (none, (w.PQexecPrepared L stmtName params).2.PQclear
        (w.PQexecPrepared L stmtName params).1)
    else
      ((w.PQexecPrepared L stmtName params).1, (w.PQexecPrepared L stmtName params).2)

/-- Method `executeCommand(query)`. -/
def executeCommand (L : Libpq σ) (w : World σ) (query : String) : Bool × World σ :=
  if (execute L w query).1.isSome then
    (true, (execute L w query).2.PQclear (execute L w query).1)
  else
    (false, (execute L w query).2)

end PostgreSQLQuery

/-- The two-outcome classification of the design: a status is a success when
it is command-OK or tuples-OK. -/
def isSuccessStatus (status : ExecStatusType) : Bool :=
  status == .PGRES_COMMAND_OK || status == .PGRES_TUPLES_OK

/-- What the classification asks of an execution path that went to the
server: `raw` is the libpq call made from the world `w`, `out` what the path
returns.  The path returns a pointer exactly for a success status; on success
it is the native result itself and nothing is released; otherwise the native
result, when there is one, is released once; in both cases the statement sent
and the session are those of the libpq call. -/
def ClassifiedOutcome (w : World σ) (raw out : Option PGresult × World σ) : Prop :=
  out.2.conn = raw.2.conn ∧ out.2.sent = raw.2.sent ∧
  out.1.isSome = isSuccessStatus (PQresultStatus raw.1) ∧
  (isSuccessStatus (PQresultStatus raw.1) = true →
    out.1 = raw.1 ∧ raw.1.isSome = true ∧ out.2.cleared = w.cleared) ∧
  (isSuccessStatus (PQresultStatus raw.1) = false →
    out.1 = none ∧ out.2.cleared = w.cleared + (if raw.1.isSome then 1 else 0))

/-! ## Connection Handle: `disconnect` and the state queries -/

namespace PostgreSQLConnection

/-- Method `disconnect()`, with the number of `PQfinish` calls made so far as
a history variable: the handle and the count afterwards. -/
def disconnect (self : PostgreSQLConnection σ) (finished : Nat) :
    PostgreSQLConnection σ × Nat :=
  match self.connection with
  | some _ => ({ connection := none }, finished + 1)
  | none => (self, finished)

/-- Method `isConnected()`. -/
def isConnected (self : PostgreSQLConnection σ) : Bool :=
  self.connection.isSome

/-- Method `getLastError()`. -/
def getLastError (L : Libpq σ) (self : PostgreSQLConnection σ) : String :=
  match self.connection with
  | some s => L.PQerrorMessage s
  | none => "No connection established"

end PostgreSQLConnection

/-! ## Native Result Guard: `PGResultWrapper` -/

/-- A native result reference: the address that a `PGresult *` holds. -/
abbrev PGresultRef := Nat

/-- Class `PGResultWrapper`: the private member `PGresult *result`. -/
structure PGResultWrapper where
  result : Option PGresultRef
  deriving DecidableEq, Repr

namespace PGResultWrapper

/-- The call `PQclear(result)` on a reference, with the log of the references
freed so far, oldest first; a null pointer is ignored. -/
def PQclear (freed : List PGresultRef) (result : Option PGresultRef) : List PGresultRef :=
  match result with
  | some r => freed ++ [r]
  | none => freed

/-- Constructor `explicit PGResultWrapper(PGresult *res = nullptr)`. -/
def make (res : Option PGresultRef) : PGResultWrapper :=
  { result := res }

/-- Destructor `~PGResultWrapper()`: the log afterwards. -/
def destroy (self : PGResultWrapper) (freed : List PGresultRef) : List PGresultRef :=
  if self.result.isSome then PQclear freed self.result else freed

/-- Move constructor `PGResultWrapper(PGResultWrapper &&other)`: the new guard
and `other` afterwards. -/
def moveConstruct (other : PGResultWrapper) : PGResultWrapper × PGResultWrapper :=
  ({ result := other.result }, { other with result := none })

/-- Move assignment `operator=(PGResultWrapper &&other)` between two distinct
objects (the branch `this != &other`): this guard, `other` and the log
afterwards. -/
def moveAssign (self other : PGResultWrapper) (freed : List PGresultRef) :
    PGResultWrapper × PGResultWrapper × List PGresultRef :=
  ({ self with result := other.result }, { other with result := none },
    if self.result.isSome then PQclear freed self.result else freed)

/-- Method `get()`. -/
def get (self : PGResultWrapper) : Option PGresultRef := self.result

/-- Method `release()`: the returned pointer and the guard afterwards. -/
def release (self : PGResultWrapper) : Option PGresultRef × PGResultWrapper :=
  (self.result, { self with result := none })

/-- Method `reset(res)`: the guard and the log afterwards. -/
def reset (self : PGResultWrapper) (res : Option PGresultRef)
    (freed : List PGresultRef) : PGResultWrapper × List PGresultRef :=
  ({ self with result := res },
    if self.result.isSome then PQclear freed self.result else freed)

end PGResultWrapper

/-- The guard objects alive at a point of a program, by object identity, and
the log of the references freed so far. -/
structure Guards where
  objects : Nat → Option PGResultWrapper
  freed : List PGresultRef

/-- One operation of a program on its guards; `g` and `other` are object
identities. -/
inductive GuardOp where
  | construct (g : Nat) (res : Option PGresultRef)
  | moveConstruct (g other : Nat)
  | moveAssign (g other : Nat)
  | release (g : Nat)
  | reset (g : Nat) (res : Option PGresultRef)
  | destroy (g : Nat)
  deriving DecidableEq, Repr

namespace Guards

/-- No guard alive, nothing freed. -/
def init : Guards :=
  { objects := fun _ => none, freed := [] }

/-- The objects after the object `g` became `v` (`none`: destroyed). -/
def put (objects : Nat → Option PGResultWrapper) (g : Nat)
    (v : Option PGResultWrapper) : Nat → Option PGResultWrapper :=
  fun h => if h = g then v else objects h

/-- The effect of one operation.  An operation on an object that is not alive
is not a step of a C++ program and leaves the state as it is; move assignment
of an object to itself is the no-op of the branch `this == &other`. -/
def step (s : Guards) : GuardOp → Guards
  | .construct g res =>
    { s with objects := put s.objects g (some (PGResultWrapper.make res)) }
  | .moveConstruct g other =>
    match s.objects other with
    | some o =>
      { s with
        objects := put (put s.objects other (some o.moveConstruct.2)) g
                     (some o.moveConstruct.1) }
    | none => s
  | .moveAssign g other =>
    match s.objects g, s.objects other with
    | some a, some o =>
      if g = other then s
      else
        { objects := put (put s.objects other (some (a.moveAssign o s.freed).2.1)) g
                       (some (a.moveAssign o s.freed).1),
          freed := (a.moveAssign o s.freed).2.2 }
    | _, _ => s
  | .release g =>
    match s.objects g with
    | some a => { s with objects := put s.objects g (some a.release.2) }
    | none => s
  | .reset g res =>
    match s.objects g with
    | some a =>
      { objects := put s.objects g (some (a.reset res s.freed).1),
        freed := (a.reset res s.freed).2 }
    | none => s
  | .destroy g =>
    match s.objects g with
    | some a =>
      { objects := put s.objects g none,
        freed := a.destroy s.freed }
    | none => s

/-- The effect of a sequence of operations, first to last. -/
def run (s : Guards) : List GuardOp → Guards
  | [] => s
  | op :: rest => run (s.step op) rest

/-- The reference that the object `g` holds: `none` when `g` is not alive or
is an empty guard. -/
def held (s : Guards) (g : Nat) : Option PGresultRef :=
  match s.objects g with
  | some a => a.result
  | none => none

/-- A pointer is fresh for the guards when it is null, or a reference that no
guard alive holds and that has not been freed. -/
def Fresh (s : Guards) (res : Option PGresultRef) : Prop :=
  ∀ r, res = some r → r ∉ s.freed ∧ ∀ g, s.held g ≠ some r

/-- The ownership discipline of one operation: it acts on objects that are
alive, a constructor makes an object that is not alive yet, and a reference
handed to a constructor or to `reset` is fresh. -/
def Admissible (s : Guards) : GuardOp → Prop
  | .construct g res => s.objects g = none ∧ s.Fresh res
  | .moveConstruct g other => s.objects g = none ∧ (s.objects other).isSome = true
  | .moveAssign g other => (s.objects g).isSome = true ∧ (s.objects other).isSome = true
  | .release g => (s.objects g).isSome = true
  | .reset g res => (s.objects g).isSome = true ∧ s.Fresh res
  | .destroy g => (s.objects g).isSome = true

/-- Every operation of the sequence is admissible in the state it runs in. -/
def AdmissibleRun : Guards → List GuardOp → Prop
  | _, [] => True
  | s, op :: rest => s.Admissible op ∧ AdmissibleRun (s.step op) rest

/-- The precondition in the words of the claim: operations act on objects
that are alive, a constructor takes any reference, and `reset` takes any
reference that no other guard holds. -/
def ClaimAdmissible (s : Guards) : GuardOp → Prop
  | .construct g _ => s.objects g = none
  | .moveConstruct g other => s.objects g = none ∧ (s.objects other).isSome = true
  | .moveAssign g other => (s.objects g).isSome = true ∧ (s.objects other).isSome = true
  | .release g => (s.objects g).isSome = true
  | .reset g res =>
    (s.objects g).isSome = true ∧ ∀ r h, res = some r → h ≠ g → s.held h ≠ some r
  | .destroy g => (s.objects g).isSome = true

/-- Every operation of the sequence meets `ClaimAdmissible` in the state it
runs in. -/
def ClaimAdmissibleRun : Guards → List GuardOp → Prop
  | _, [] => True
  | s, op :: rest => s.ClaimAdmissible op ∧ ClaimAdmissibleRun (s.step op) rest

/-- The ownership invariant: no reference is in the log twice, no guard alive
holds a freed reference, and no two guards hold the same reference. -/
def Inv (s : Guards) : Prop :=
  s.freed.Nodup ∧
  (∀ g r, s.held g = some r → r ∉ s.freed) ∧
  (∀ g h r, s.held g = some r → s.held h = some r → g = h)

end Guards

/-! ## Theorems: the column index map and the Row View accessors -/

theorem StdMap.find_assign_same (m : StdMap) (k : String) (v : Int) :
    (m.assign k v).find k = some v := by
  induction m with
  | nil => simp [StdMap.assign, StdMap.find]
  | cons p t ih =>
    obtain ⟨k1, v1⟩ := p
    by_cases h : k1 = k
    · simp [StdMap.assign, StdMap.find, h]
    · simp [StdMap.assign, StdMap.find, h, ih]

theorem StdMap.find_assign_other (m : StdMap) (k k2 : String) (v : Int) (hne : k ≠ k2) :
    (m.assign k v).find k2 = m.find k2 := by
  induction m with
  | nil => simp [StdMap.assign, StdMap.find, hne]
  | cons p t ih =>
    obtain ⟨k1, v1⟩ := p
    by_cases h : k1 = k
    · subst h
      simp [StdMap.assign, StdMap.find, hne]
    · by_cases h2 : k1 = k2
      · subst h2
        simp [StdMap.assign, StdMap.find, h]
      · simp [StdMap.assign, StdMap.find, h, h2, ih]

namespace ResultRow

theorem find_indexLoop_of_not_mem (cs : List String) (i : Int) (m : StdMap) (k : String)
    (hk : k ∉ cs) : (indexLoop cs i m).find k = m.find k := by
  induction cs generalizing i m with
  | nil => rfl
  | cons c t ih =>
    have hc : c ≠ k := fun h => hk (by simp [h])
    have ht : k ∉ t := fun h => hk (by simp [h])
    simp only [indexLoop]
    rw [ih _ _ ht, StdMap.find_assign_other _ _ _ _ hc]

theorem find_indexLoop_last (cs : List String) (i : Int) (m : StdMap) (n : Nat) (k : String)
    (hn : cs[n]? = some k) (hlast : k ∉ cs.drop (n + 1)) :
    (indexLoop cs i m).find k = some (i + n) := by
  induction cs generalizing i m n with
  | nil => simp at hn
  | cons c t ih =>
    cases n with
    | zero =>
      simp at hn
      subst hn
      simp at hlast
      simp only [indexLoop]
      rw [find_indexLoop_of_not_mem _ _ _ _ hlast, StdMap.find_assign_same]
      simp
    | succ n =>
      simp at hn
      simp at hlast
      simp only [indexLoop]
      rw [ih (i + 1) _ n hn hlast]
      simp
      ring

theorem find_indexLoop_none (cs : List String) (k : String) (hk : k ∉ cs) :
    (indexLoop cs 0 []).find k = none := by
  rw [find_indexLoop_of_not_mem _ _ _ _ hk]; rfl

theorem getStringAt_natCast (self : ResultRow) (n : Nat) (d : String) :
    self.getStringAt (n : Int) d = if n < self.values.length then self.values.getD n d else d := by
  simp [getStringAt]

theorem getString_make_last (colNames rowValues : List String) (n : Nat) (name d : String)
    (hn : colNames[n]? = some name) (hlast : name ∉ colNames.drop (n + 1)) :
    (make colNames rowValues).getString name d = (make colNames rowValues).getStringAt (n : Int) d := by
  rw [getStringAt_natCast]
  simp [getString, make, find_indexLoop_last colNames 0 [] n name hn hlast]

theorem getString_make_missing (colNames rowValues : List String) (name d : String)
    (h : name ∉ colNames) : (make colNames rowValues).getString name d = d := by
  simp [getString, make, find_indexLoop_none colNames name h]

theorem getStringAt_out_of_range (self : ResultRow) (i : Int) (d : String)
    (h : i < 0 ∨ (self.values.length : Int) ≤ i) : self.getStringAt i d = d := by
  unfold getStringAt
  rw [if_neg]
  omega

theorem emptyOrNull_iff (value : String) :
    (value.isEmpty || value == "NULL") = true ↔ value = "" ∨ value = "NULL" := by
  simp [String.isEmpty_iff]

theorem intOfText_ok (value : String) (d : Int) : ∃ v, intOfText value d = .ok v := by
  unfold intOfText
  split
  · exact ⟨d, rfl⟩
  · split
    · exact ⟨_, rfl⟩
    · exact ⟨d, rfl⟩

theorem intOfText_rejected (value : String) (d : Int) (h : StoiRejects value) :
    intOfText value d = .ok d := by
  unfold intOfText
  split
  · rfl
  · rename_i hne
    rw [emptyOrNull_iff] at hne
    have hstoi : ∃ e, stoi value = .error e := by
      unfold stoi
      rcases h with h | h | h | h
      · exact absurd (Or.inl h) hne
      · exact absurd (Or.inr h) hne
      · exact ⟨.invalid_argument, by simp [h]⟩
      · by_cases hd : (stoiDigits value).isEmpty
        · exact ⟨_, by rw [if_pos hd]⟩
        · exact ⟨_, by rw [if_neg hd, if_pos h]⟩
    obtain ⟨e, he⟩ := hstoi
    rw [he]

theorem intOfText_accepted (value : String) (d : Int) (h : ¬ StoiRejects value) :
    intOfText value d = .ok (stoiValue value) := by
  unfold StoiRejects at h
  push_neg at h
  obtain ⟨h1, h2, h3, h4, h5⟩ := h
  have hd : (stoiDigits value).isEmpty = false := by
    cases hds : stoiDigits value with
    | nil => exact absurd hds h3
    | cons a t => rfl
  have hr : ¬ (stoiValue value < INT_MIN ∨ INT_MAX < stoiValue value) := by
    push_neg; exact ⟨h4, h5⟩
  have hne : ¬ (value.isEmpty || value == "NULL") = true := by
    rw [emptyOrNull_iff]; push_neg; exact ⟨h1, h2⟩
  unfold intOfText
  rw [if_neg hne]
  simp [stoi, hd, hr]

theorem boolOfText_true (value : String) (d : Bool)
    (h : value ∈ ["t", "true", "1", "yes"]) : boolOfText value d = true := by
  simp at h
  rcases h with h | h | h | h <;> subst h <;> rfl

theorem boolOfText_false (value : String) (d : Bool)
    (h : value ∈ ["f", "false", "0", "no"]) : boolOfText value d = false := by
  simp at h
  rcases h with h | h | h | h <;> subst h <;> rfl

theorem boolOfText_default (value : String) (d : Bool)
    (ht : value ∉ ["t", "true", "1", "yes"]) (hf : value ∉ ["f", "false", "0", "no"]) :
    boolOfText value d = d := by
  simp at ht hf
  simp [boolOfText, ht, hf]

theorem boolOfText_true_iff (value : String) :
    (∀ d : Bool, boolOfText value d = true) ↔ value ∈ ["t", "true", "1", "yes"] := by
  constructor
  · intro h
    by_contra ht
    by_cases hf : value ∈ ["f", "false", "0", "no"]
    · have h1 := boolOfText_false value false hf
      rw [h false] at h1
      exact absurd h1 (by decide)
    · have h1 := boolOfText_default value false ht hf
      rw [h false] at h1
      exact absurd h1 (by decide)
  · intro h d
    exact boolOfText_true value d h

theorem boolOfText_false_iff (value : String) :
    (∀ d : Bool, boolOfText value d = false) ↔ value ∈ ["f", "false", "0", "no"] := by
  constructor
  · intro h
    by_contra hf
    by_cases ht : value ∈ ["t", "true", "1", "yes"]
    · have h1 := boolOfText_true value true ht
      rw [h true] at h1
      exact absurd h1 (by decide)
    · have h1 := boolOfText_default value true ht hf
      rw [h true] at h1
      exact absurd h1 (by decide)
  · intro h d
    exact boolOfText_false value d h

/-- Claim C4 as written fails when a column name repeats: columns `a, a`
with values `x, y`; index 0 is valid, `columns[0]` is `a`, `getString(0)` is
`x` and `getString("a")` is `y`. -/
theorem C4_duplicate_column_counterexample :
    ["a", "a"][0]? = some "a" ∧
    (make ["a", "a"] ["x", "y"]).getStringAt 0 "" = "x" ∧
    (make ["a", "a"] ["x", "y"]).getString "a" "" = "y" ∧
    (make ["a", "a"] ["x", "y"]).getStringAt 0 "" ≠
      (make ["a", "a"] ["x", "y"]).getString "a" "" := by
  decide

/-- Claim C4, amended: for every Row View built from a column-name list and a
value list, every index `i` valid for the column list whose name does not
occur again at a later index, and every default `d`, `getString(i, d)` equals
`getString(columns[i], d)`. -/
theorem C4_getString_index_name_agree (colNames rowValues : List String) (i : Nat)
    (name d : String) (hi : colNames[i]? = some name)
    (hlast : name ∉ colNames.drop (i + 1)) :
    (make colNames rowValues).getStringAt (i : Int) d =
      (make colNames rowValues).getString name d :=
  (getString_make_last colNames rowValues i name d hi hlast).symm

theorem C4_getString_index_name_agree_witness :
    (make ["id", "name"] ["7", "Ann"]).getStringAt ((1 : Nat) : Int) "none" =
      (make ["id", "name"] ["7", "Ann"]).getString "name" "none" ∧
    (make ["id", "name"] ["7", "Ann"]).getString "name" "none" = "Ann" :=
  ⟨C4_getString_index_name_agree ["id", "name"] ["7", "Ann"] 1 "name" "none"
    (by decide) (by decide), by decide⟩

/-- Claim C9 as written fails on a text that starts with digits: "12abc" is
not an integer literal, and `getInt` with default 0 returns 12 for it through
both overloads. -/
theorem C9_leading_digits_counterexample :
    isIntLiteral "12abc" = false ∧
    (make ["n"] ["12abc"]).getString "n" "" = "12abc" ∧
    (make ["n"] ["12abc"]).getInt "n" 0 = .ok 12 ∧
    (make ["n"] ["12abc"]).getIntAt 0 0 = .ok 12 ∧
    (make ["n"] ["12abc"]).getInt "n" 0 ≠ .ok 0 := by
  refine ⟨by decide, by decide, rfl, rfl, ?_⟩
  intro h
  have h2 : (make ["n"] ["12abc"]).getInt "n" 0 = .ok 12 := rfl
  rw [h2] at h
  exact absurd (Except.ok.inj h) (by decide)

/-- Claim C9, amended: for every Row View, every column designator (name or
index, valid or not) and every default `d`, `getInt` never raises; it returns
exactly `d` when the designated cell is missing, is the empty string, is the
text "NULL", has no decimal digit after optional leading white space and an
optional sign ("abc"), or has a leading digit run whose value does not fit in
`int` ("99999999999999999999"); for every other text it returns the value of
that leading digit run, whatever follows it ("12abc" gives 12). -/
theorem C9_getInt_default (colNames rowValues : List String) (columnName : String)
    (columnIndex : Int) (d : Int) :
    (∃ v, (make colNames rowValues).getInt columnName d = .ok v) ∧
    (∃ v, (make colNames rowValues).getIntAt columnIndex d = .ok v) ∧
    (columnName ∉ colNames → (make colNames rowValues).getInt columnName d = .ok d) ∧
    (columnIndex < 0 ∨ (rowValues.length : Int) ≤ columnIndex →
      (make colNames rowValues).getIntAt columnIndex d = .ok d) ∧
    (StoiRejects ((make colNames rowValues).getString columnName "") →
      (make colNames rowValues).getInt columnName d = .ok d) ∧
    (StoiRejects ((make colNames rowValues).getStringAt columnIndex "") →
      (make colNames rowValues).getIntAt columnIndex d = .ok d) ∧
    (¬ StoiRejects ((make colNames rowValues).getString columnName "") →
      (make colNames rowValues).getInt columnName d =
        .ok (stoiValue ((make colNames rowValues).getString columnName ""))) ∧
    (¬ StoiRejects ((make colNames rowValues).getStringAt columnIndex "") →
      (make colNames rowValues).getIntAt columnIndex d =
        .ok (stoiValue ((make colNames rowValues).getStringAt columnIndex ""))) := by
  refine ⟨intOfText_ok _ _, intOfText_ok _ _, ?_, ?_, ?_, ?_, ?_, ?_⟩
  · intro h
    unfold getInt
    rw [getString_make_missing _ _ _ _ h]
    exact intOfText_rejected _ _ (Or.inl rfl)
  · intro h
    unfold getIntAt
    rw [getStringAt_out_of_range _ _ _ h]
    exact intOfText_rejected _ _ (Or.inl rfl)
  · exact intOfText_rejected _ _
  · exact intOfText_rejected _ _
  · exact intOfText_accepted _ _
  · exact intOfText_accepted _ _

theorem C9_getInt_default_witness :
    (make ["a", "b"] ["abc", "99999999999999999999"]).getInt "zz" 7 = .ok 7 ∧
    (make ["a", "b"] ["abc", "99999999999999999999"]).getIntAt 2 7 = .ok 7 ∧
    (make ["a", "b"] ["abc", "99999999999999999999"]).getInt "a" 7 = .ok 7 ∧
    (make ["a", "b"] ["abc", "99999999999999999999"]).getIntAt 1 7 = .ok 7 ∧
    (make ["a", "b"] ["-42", " +17 apples"]).getInt "a" 7 = .ok (-42) ∧
    (make ["a", "b"] ["-42", " +17 apples"]).getIntAt 1 7 = .ok 17 :=
  ⟨(C9_getInt_default ["a", "b"] ["abc", "99999999999999999999"] "zz" 2 7).2.2.1
      (by decide),
   (C9_getInt_default ["a", "b"] ["abc", "99999999999999999999"] "zz" 2 7).2.2.2.1
      (by decide),
   (C9_getInt_default ["a", "b"] ["abc", "99999999999999999999"] "a" 1 7).2.2.2.2.1
      (Or.inr (Or.inr (Or.inl (by decide)))),
   (C9_getInt_default ["a", "b"] ["abc", "99999999999999999999"] "a" 1 7).2.2.2.2.2.1
      (Or.inr (Or.inr (Or.inr (Or.inr (by decide))))),
   (C9_getInt_default ["a", "b"] ["-42", " +17 apples"] "a" 1 7).2.2.2.2.2.2.1
      (by unfold StoiRejects; decide),
   (C9_getInt_default ["a", "b"] ["-42", " +17 apples"] "a" 1 7).2.2.2.2.2.2.2
      (by unfold StoiRejects; decide)⟩

/-- Claim C10 as written fails twice.  The two "if and only if" fail at a
text outside both token sets, where the answer is the default: the cell "abc"
gives true with default true and false with default false.  The overloads
disagree on a repeated column name: with columns `a, a` and values `t, f`,
index 0 reads `t` and gives true, its own name `a` reads `f` and gives
false. -/
theorem C10_default_and_duplicate_counterexample :
    (make ["a"] ["abc"]).getString "a" "" = "abc" ∧
    "abc" ∉ ["t", "true", "1", "yes"] ∧
    "abc" ∉ ["f", "false", "0", "no"] ∧
    (make ["a"] ["abc"]).getBool "a" true = true ∧
    (make ["a"] ["abc"]).getBool "a" false = false ∧
    (make ["a"] ["abc"]).getBoolAt 0 true = true ∧
    (make ["a"] ["abc"]).getBoolAt 0 false = false ∧
    ["a", "a"][0]? = some "a" ∧
    (make ["a", "a"] ["t", "f"]).getBoolAt 0 false = true ∧
    (make ["a", "a"] ["t", "f"]).getBool "a" true = false ∧
    (make ["a", "a"] ["t", "f"]).getBoolAt 0 false ≠
      (make ["a", "a"] ["t", "f"]).getBool "a" false := by
  decide

/-- Claim C10, amended: for every Row View, column designator (name or index)
and default `d`, `getBool` is true when the cell text is one of "t", "true",
"1", "yes", false when it is one of "f", "false", "0", "no", and `d` for every
other text, a missing column included; hence it is true whatever the default
if and only if the text is one of the four true tokens, and false whatever the
default if and only if the text is one of the four false tokens; for every
index `i` valid for the column list whose name does not occur again at a later
index, `getBool(i, d)` equals `getBool(columns[i], d)`. -/
theorem C10_getBool_tokens (colNames rowValues : List String) (columnName : String)
    (columnIndex : Int) (d : Bool) :
    ((make colNames rowValues).getString columnName "" ∈ ["t", "true", "1", "yes"] →
      (make colNames rowValues).getBool columnName d = true) ∧
    ((make colNames rowValues).getString columnName "" ∈ ["f", "false", "0", "no"] →
      (make colNames rowValues).getBool columnName d = false) ∧
    ((make colNames rowValues).getString columnName "" ∉ ["t", "true", "1", "yes"] →
      (make colNames rowValues).getString columnName "" ∉ ["f", "false", "0", "no"] →
      (make colNames rowValues).getBool columnName d = d) ∧
    ((make colNames rowValues).getStringAt columnIndex "" ∈ ["t", "true", "1", "yes"] →
      (make colNames rowValues).getBoolAt columnIndex d = true) ∧
    ((make colNames rowValues).getStringAt columnIndex "" ∈ ["f", "false", "0", "no"] →
      (make colNames rowValues).getBoolAt columnIndex d = false) ∧
    ((make colNames rowValues).getStringAt columnIndex "" ∉ ["t", "true", "1", "yes"] →
      (make colNames rowValues).getStringAt columnIndex "" ∉ ["f", "false", "0", "no"] →
      (make colNames rowValues).getBoolAt columnIndex d = d) ∧
    (columnName ∉ colNames → (make colNames rowValues).getBool columnName d = d) ∧
    (columnIndex < 0 ∨ (rowValues.length : Int) ≤ columnIndex →
      (make colNames rowValues).getBoolAt columnIndex d = d) ∧
    (∀ (i : Nat) (name : String), colNames[i]? = some name →
      name ∉ colNames.drop (i + 1) →
      (make colNames rowValues).getBoolAt (i : Int) d =
        (make colNames rowValues).getBool name d) ∧
    ((∀ d1 : Bool, (make colNames rowValues).getBool columnName d1 = true) ↔
      (make colNames rowValues).getString columnName "" ∈ ["t", "true", "1", "yes"]) ∧
    ((∀ d1 : Bool, (make colNames rowValues).getBool columnName d1 = false) ↔
      (make colNames rowValues).getString columnName "" ∈ ["f", "false", "0", "no"]) ∧
    ((∀ d1 : Bool, (make colNames rowValues).getBoolAt columnIndex d1 = true) ↔
      (make colNames rowValues).getStringAt columnIndex "" ∈ ["t", "true", "1", "yes"]) ∧
    ((∀ d1 : Bool, (make colNames rowValues).getBoolAt columnIndex d1 = false) ↔
      (make colNames rowValues).getStringAt columnIndex "" ∈ ["f", "false", "0", "no"]) := by
  refine ⟨boolOfText_true _ _, boolOfText_false _ _, boolOfText_default _ _,
    boolOfText_true _ _, boolOfText_false _ _, boolOfText_default _ _, ?_, ?_, ?_,
    boolOfText_true_iff _, boolOfText_false_iff _, boolOfText_true_iff _,
    boolOfText_false_iff _⟩
  · intro h
    unfold getBool
    rw [getString_make_missing _ _ _ _ h]
    rfl
  · intro h
    unfold getBoolAt
    rw [getStringAt_out_of_range _ _ _ h]
    rfl
  · intro i name hi hlast
    unfold getBoolAt getBool
    rw [getString_make_last colNames rowValues i name "" hi hlast]

theorem C10_getBool_tokens_witness :
    (make ["a", "b", "c"] ["yes", "0", "TRUE"]).getBool "a" false = true ∧
    (make ["a", "b", "c"] ["yes", "0", "TRUE"]).getBool "b" true = false ∧
    (make ["a", "b", "c"] ["yes", "0", "TRUE"]).getBool "c" false = false ∧
    (make ["a", "b", "c"] ["yes", "0", "TRUE"]).getBoolAt 0 false = true ∧
    (make ["a", "b", "c"] ["yes", "0", "TRUE"]).getBoolAt 1 true = false ∧
    (make ["a", "b", "c"] ["yes", "0", "TRUE"]).getBoolAt 2 true = true ∧
    (make ["a", "b", "c"] ["yes", "0", "TRUE"]).getBool "zz" true = true ∧
    (make ["a", "b", "c"] ["yes", "0", "TRUE"]).getBoolAt 3 true = true ∧
    (make ["a", "b", "c"] ["yes", "0", "TRUE"]).getBoolAt ((1 : Nat) : Int) true =
      (make ["a", "b", "c"] ["yes", "0", "TRUE"]).getBool "b" true :=
  ⟨(C10_getBool_tokens ["a", "b", "c"] ["yes", "0", "TRUE"] "a" 0 false).1 (by decide),
   (C10_getBool_tokens ["a", "b", "c"] ["yes", "0", "TRUE"] "b" 1 true).2.1 (by decide),
   (C10_getBool_tokens ["a", "b", "c"] ["yes", "0", "TRUE"] "c" 2 false).2.2.1
      (by decide) (by decide),
   (C10_getBool_tokens ["a", "b", "c"] ["yes", "0", "TRUE"] "a" 0 false).2.2.2.1
      (by decide),
   (C10_getBool_tokens ["a", "b", "c"] ["yes", "0", "TRUE"] "b" 1 true).2.2.2.2.1
      (by decide),
   (C10_getBool_tokens ["a", "b", "c"] ["yes", "0", "TRUE"] "c" 2 true).2.2.2.2.2.1
      (by decide) (by decide),
   (C10_getBool_tokens ["a", "b", "c"] ["yes", "0", "TRUE"] "zz" 3 true).2.2.2.2.2.2.1
      (by decide),
   (C10_getBool_tokens ["a", "b", "c"] ["yes", "0", "TRUE"] "zz" 3 true).2.2.2.2.2.2.2.1
      (by decide),
   (C10_getBool_tokens ["a", "b", "c"] ["yes", "0", "TRUE"] "b" 1 true).2.2.2.2.2.2.2.2.1
      1 "b" (by decide) (by decide)⟩

end ResultRow


/-! ## Theorems: materialising a native result -/

namespace QueryResult

theorem isResultValid_some (res : PGresult) :
    isResultValid (some res) =
      (res.resultStatus == .PGRES_TUPLES_OK || res.resultStatus == .PGRES_COMMAND_OK) := by
  simp [isResultValid, PQresultStatus]

theorem loadFromResult_tuples (self : QueryResult) (res : PGresult)
    (h : res.resultStatus = .PGRES_TUPLES_OK) :
    self.loadFromResult (some res) =
      (.ok true,
        { rows := (List.range res.ntuples).map fun i =>
            ResultRow.make ((List.range res.nfields).map res.fname)
              (rowValues (some res) res.nfields i)
          columnNames := (List.range res.nfields).map res.fname
          affectedRows := (res.ntuples : Int)
          errorMessage := "" }) := by
  simp [loadFromResult, clear, isResultValid_some, h, PQresultStatus,
    PqxxExecutor.getColumnNames, PqxxExecutor.getRowCount, PqxxExecutor.getColumnCount,
    PQnfields, PQntuples, PQfname]

theorem getValue_in_range (res : PGresult) (i j : Nat)
    (hv : isResultValid (some res) = true) (hi : i < res.ntuples) (hj : j < res.nfields)
    (d : String) :
    getValue (some res) (i : Int) (j : Int) d = (res.getvalue i j).getD d := by
  have h1 : ¬ ((i : Int) ≥ (res.ntuples : Int)) := by omega
  have h2 : ¬ ((j : Int) ≥ (res.nfields : Int)) := by omega
  simp only [getValue, hv, PqxxExecutor.getRowCount, PqxxExecutor.getColumnCount,
    PQntuples, PQnfields, PQgetvalue]
  simp [h1, h2]
  cases res.getvalue i j <;> rfl

theorem rowValues_length (result : Option PGresult) (c i : Nat) :
    (rowValues result c i).length = c := by
  simp [rowValues]

theorem rowValues_getElem (res : PGresult) (i j : Nat)
    (hv : isResultValid (some res) = true) (hi : i < res.ntuples) (hj : j < res.nfields) :
    (rowValues (some res) res.nfields i)[j]? = some ((res.getvalue i j).getD "") := by
  simp [rowValues, List.getElem?_map, List.getElem?_range hj,
    getValue_in_range res i j hv hi hj]

theorem invariant_loadFromResult (self : QueryResult) (result : Option PGresult) :
    (self.loadFromResult result).2.Invariant := by
  unfold loadFromResult Invariant
  simp only [clear]
  split
  · intro _; exact ⟨rfl, rfl⟩
  · split
    · intro h; exact absurd rfl h
    · split
      · split
        · split
          · intro h; exact absurd rfl h
          · intro h; exact absurd rfl h
        · intro h; exact absurd rfl h
      · intro _; exact ⟨rfl, rfl⟩

theorem loadFromResult_tuples_row (self : QueryResult) (res : PGresult)
    (h : res.resultStatus = .PGRES_TUPLES_OK) (i : Nat) (hi : i < res.ntuples) :
    (self.loadFromResult (some res)).2.getAllRows[i]? =
      some (ResultRow.make ((List.range res.nfields).map res.fname)
        (rowValues (some res) res.nfields i)) := by
  rw [loadFromResult_tuples self res h]
  simp [getAllRows, List.getElem?_map, List.getElem?_range hi]

/-- Claim C3 fails on the code at a command-OK result whose rows-affected
string is empty (the reply to CREATE TABLE) or not a number: `std::stoi`
throws and `loadFromResult` lets the exception out, where the claim says
success with count 0.  An absent string and a numeric one behave as claimed. -/
theorem C3_loadFromResult_raises_on_empty_count :
    createTableResult.resultStatus = .PGRES_COMMAND_OK ∧
    PQcmdTuples (some createTableResult) = some "" ∧
    (fresh.loadFromResult (some createTableResult)).1 = .error .invalid_argument ∧
    (fresh.loadFromResult (some oddCountResult)).1 = .error .invalid_argument ∧
    fresh.loadFromResult (some { createTableResult with cmdTuples := none }) =
      (.ok true, fresh) ∧
    fresh.loadFromResult (some insertThreeResult) =
      (.ok true, { fresh with affectedRows := 3 }) := by
  refine ⟨rfl, rfl, rfl, rfl, rfl, rfl⟩

/-- Claim C5: for every native result with status tuples-OK, `r` rows and `c`
columns, `loadFromResult` returns success, the column names are the server's
in column order, there are exactly `r` Row Views, Row View `i` carries the
Result Set's column-name list and exactly `c` values, value `j` being the text
of cell `(i, j)`, and `getRowCount() = getAffectedRows() = r`. -/
theorem C5_loadFromResult_tuples (self : QueryResult) (res : PGresult)
    (h : res.resultStatus = .PGRES_TUPLES_OK) :
    (self.loadFromResult (some res)).1 = .ok true ∧
    (self.loadFromResult (some res)).2.hasError = false ∧
    (self.loadFromResult (some res)).2.getColumnNames =
      (List.range res.nfields).map res.fname ∧
    (self.loadFromResult (some res)).2.getAllRows.length = res.ntuples ∧
    (∀ i, i < res.ntuples → ∃ row,
      (self.loadFromResult (some res)).2.getAllRows[i]? = some row ∧
      row.getColumns = (self.loadFromResult (some res)).2.getColumnNames ∧
      row.getValues.length = res.nfields ∧
      ∀ j, j < res.nfields → row.getValues[j]? = some ((res.getvalue i j).getD "")) ∧
    (self.loadFromResult (some res)).2.getRowCount = res.ntuples ∧
    (self.loadFromResult (some res)).2.getAffectedRows = (res.ntuples : Int) := by
  have hv : isResultValid (some res) = true := by simp [isResultValid_some, h]
  rw [loadFromResult_tuples self res h]
  refine ⟨rfl, rfl, rfl, by simp [getAllRows], ?_, by simp [getRowCount], rfl⟩
  intro i hi
  refine ⟨ResultRow.make ((List.range res.nfields).map res.fname)
    (rowValues (some res) res.nfields i), ?_, rfl, ?_, ?_⟩
  · rw [← loadFromResult_tuples self res h]
    exact loadFromResult_tuples_row self res h i hi
  · simp [ResultRow.getValues, ResultRow.make, rowValues_length]
  · intro j hj
    exact rowValues_getElem res i j hv hi hj

theorem C5_loadFromResult_tuples_witness :
    usersResult.resultStatus = .PGRES_TUPLES_OK ∧
    (fresh.loadFromResult (some usersResult)).1 = .ok true ∧
    (fresh.loadFromResult (some usersResult)).2.getColumnNames = ["id", "name"] ∧
    (fresh.loadFromResult (some usersResult)).2.getAllRows.length = 2 ∧
    (fresh.loadFromResult (some usersResult)).2.getRowCount = 2 ∧
    (fresh.loadFromResult (some usersResult)).2.getAffectedRows = 2 ∧
    (fresh.loadFromResult (some usersResult)).2.getAllRows.map ResultRow.getValues =
      [["1", "Ann"], ["2", "Bob"]] :=
  ⟨rfl, (C5_loadFromResult_tuples fresh usersResult rfl).1,
    (C5_loadFromResult_tuples fresh usersResult rfl).2.2.1,
    (C5_loadFromResult_tuples fresh usersResult rfl).2.2.2.1,
    (C5_loadFromResult_tuples fresh usersResult rfl).2.2.2.2.2.1,
    (C5_loadFromResult_tuples fresh usersResult rfl).2.2.2.2.2.2, by decide⟩

/-- Claim C6 as written fails for `setErrorMessage`: the Result Set loaded
from a two-row SELECT satisfies the invariant, and after
`setErrorMessage("failed")` it has an error message and still two rows. -/
theorem C6_setErrorMessage_counterexample :
    (fresh.loadFromResult (some usersResult)).2.Invariant ∧
    ((fresh.loadFromResult (some usersResult)).2.setErrorMessage "failed").errorMessage
      = "failed" ∧
    ((fresh.loadFromResult (some usersResult)).2.setErrorMessage "failed").rows.length
      = 2 ∧
    ¬ ((fresh.loadFromResult (some usersResult)).2.setErrorMessage "failed").Invariant := by
  refine ⟨invariant_loadFromResult _ _, rfl, by decide, ?_⟩
  intro h
  have h2 := (h (by decide)).2
  exact absurd h2 (by decide)

/-- Claim C6, amended: the invariant "a non-empty error message comes with
an empty row list and an empty column-name list" holds for a freshly
constructed Result Set, holds after `loadFromResult` and after `clear` for
every argument and from every state, and holds after `setErrorMessage` when
the rows and column names are empty at the call (as on a fresh Result Set) or
the message set is empty. -/
theorem C6_invariant_preserved :
    fresh.Invariant ∧
    (∀ (self : QueryResult) (result : Option PGresult),
      (self.loadFromResult result).2.Invariant) ∧
    (∀ self : QueryResult, self.clear.Invariant) ∧
    (∀ (self : QueryResult) (error : String),
      (self.rows = [] ∧ self.columnNames = []) ∨ error = "" →
      (self.setErrorMessage error).Invariant) := by
  refine ⟨fun _ => ⟨rfl, rfl⟩, invariant_loadFromResult, fun _ _ => ⟨rfl, rfl⟩, ?_⟩
  intro self error h herr
  rcases h with h | h
  · exact h
  · exact absurd h herr

theorem C6_invariant_preserved_witness :
    (fresh.setErrorMessage "Connection is not established").Invariant ∧
    ((fresh.loadFromResult (some usersResult)).2.setErrorMessage "").Invariant :=
  ⟨C6_invariant_preserved.2.2.2 fresh "Connection is not established"
      (Or.inl ⟨rfl, rfl⟩),
   C6_invariant_preserved.2.2.2 (fresh.loadFromResult (some usersResult)).2 ""
      (Or.inr rfl)⟩

/-- Claim C7 as written fails on the sentinel: for a row whose first field is
SQL NULL and whose second is the empty text, both Row View values are the
empty string, and neither is the token "NULL". -/
theorem C7_sentinel_counterexample :
    (fresh.loadFromResult (some nullAndEmptyResult)).1 = .ok true ∧
    (fresh.loadFromResult (some nullAndEmptyResult)).2.getAllRows.map ResultRow.getValues
      = [["", ""]] ∧
    ¬ ((fresh.loadFromResult (some nullAndEmptyResult)).2.getAllRows.map
        ResultRow.getValues = [["NULL", "NULL"]]) := by
  refine ⟨rfl, by decide, by decide⟩

/-- Claim C7, amended: for every successful read result materialised by
`loadFromResult`, a cell that is SQL NULL and a cell that is the literal empty
string (libpq hands both over as the empty string; a null pointer is treated
alike) are stored as the same Row View text, that text is the empty string
and not the token "NULL", and `isNull` answers true for it. -/
theorem C7_null_and_empty_cells (self : QueryResult) (res : PGresult)
    (h : res.resultStatus = .PGRES_TUPLES_OK) (i j : Nat)
    (hi : i < res.ntuples) (hj : j < res.nfields)
    (hcell : res.getvalue i j = some "" ∨ res.getvalue i j = none) :
    ∃ row, (self.loadFromResult (some res)).2.getAllRows[i]? = some row ∧
      row.getValues[j]? = some "" ∧
      row.getValues[j]? ≠ some "NULL" ∧
      row.getStringAt (j : Int) "(default)" = "" ∧
      row.isNullAt (j : Int) = true := by
  have hv : isResultValid (some res) = true := by simp [isResultValid_some, h]
  have hval : (rowValues (some res) res.nfields i)[j]? = some "" := by
    rw [rowValues_getElem res i j hv hi hj]
    rcases hcell with hc | hc <;> rw [hc] <;> rfl
  have hget : (ResultRow.make ((List.range res.nfields).map res.fname)
      (rowValues (some res) res.nfields i)).getStringAt (j : Int) "(default)" = "" := by
    rw [ResultRow.getStringAt_natCast]
    simp only [ResultRow.make, rowValues_length, hj, if_true]
    simp [List.getD_eq_getElem?_getD, hval]
  have hget2 : (ResultRow.make ((List.range res.nfields).map res.fname)
      (rowValues (some res) res.nfields i)).getStringAt (j : Int) "" = "" := by
    rw [ResultRow.getStringAt_natCast]
    simp only [ResultRow.make, rowValues_length, hj, if_true]
    simp [List.getD_eq_getElem?_getD, hval]
  refine ⟨_, loadFromResult_tuples_row self res h i hi, hval, ?_, hget, ?_⟩
  · simp only [ResultRow.getValues, ResultRow.make]
    rw [hval]
    decide
  · rw [ResultRow.isNullAt, hget2]
    rfl

theorem C7_null_and_empty_cells_witness :
    ∃ row, (fresh.loadFromResult (some nullAndEmptyResult)).2.getAllRows[0]? = some row ∧
      row.getValues[1]? = some "" ∧
      row.getValues[1]? ≠ some "NULL" ∧
      row.getStringAt ((1 : Nat) : Int) "(default)" = "" ∧
      row.isNullAt ((1 : Nat) : Int) = true :=
  C7_null_and_empty_cells fresh nullAndEmptyResult rfl 0 1 (by decide) (by decide)
    (Or.inl rfl)

/-- Claim C8 fails on the code at a non-null result with status fatal-error:
`loadFromResult` returns failure with empty rows and column names, as claimed,
and the error message is the fixed text "Invalid result", where the claim says
the text of the status, "PGRES_FATAL_ERROR"; for a null result the same fixed
text is set. -/
theorem C8_loadFromResult_invalid_result_text :
    fatalErrorResult.resultStatus = .PGRES_FATAL_ERROR ∧
    fresh.loadFromResult (some fatalErrorResult) =
      (.ok false, { fresh with errorMessage := "Invalid result" }) ∧
    resultStatusToString fatalErrorResult.resultStatus = "PGRES_FATAL_ERROR" ∧
    (fresh.loadFromResult (some fatalErrorResult)).2.getErrorMessage ≠
      resultStatusToString fatalErrorResult.resultStatus ∧
    fresh.loadFromResult none =
      (.ok false, { fresh with errorMessage := "Invalid result" }) := by
  refine ⟨rfl, rfl, rfl, by decide, rfl⟩

end QueryResult


/-! ## Theorems: the transaction coordinator -/

theorem QueryResult.hasError_eq_false_iff (r : QueryResult) :
    r.hasError = false ↔ r.errorMessage = "" := by
  simp [QueryResult.hasError, String.isEmpty_iff]

theorem QueryResult.loadFromResult_valid_of_no_error (self : QueryResult)
    (result : Option PGresult) (b : Bool) (r : QueryResult)
    (h : self.loadFromResult result = (.ok b, r)) (hr : r.errorMessage = "") :
    isResultValid result = true := by
  by_contra hv
  have hv2 : isResultValid result = false := by simpa using hv
  simp [QueryResult.loadFromResult, hv2] at h
  rw [← h.2] at hr
  have hne : ("Invalid result" : String) ≠ "" := by decide
  exact hne hr

namespace World

theorem PQclear_conn (w : World σ) (result : Option PGresult) :
    (w.PQclear result).conn = w.conn := by
  unfold PQclear; split <;> rfl

theorem PQclear_sent (w : World σ) (result : Option PGresult) :
    (w.PQclear result).sent = w.sent := by
  unfold PQclear; split <;> rfl

theorem PQexec_sent (L : Libpq σ) (w : World σ) (query : String)
    (h : w.conn.isOK L = true) :
    (w.PQexec L query).2.sent = w.sent ++ [Stmt.exec query] := by
  unfold PQexec
  cases hc : w.conn.connection with
  | none => simp [PostgreSQLConnection.isOK, hc] at h
  | some s => rfl

theorem PQexec_healthy (L : Libpq σ) (w : World σ) (query : String)
    (hv : isResultValid (w.PQexec L query).1 = true) :
    (w.PQexec L query).2.conn.isOK L = true := by
  unfold PQexec at hv ⊢
  cases hc : w.conn.connection with
  | none => simp [hc, isResultValid] at hv
  | some s =>
    simp only [hc] at hv ⊢
    simp [PostgreSQLConnection.isOK, L.exec_ok s query hv]

theorem PQexecParams_sent (L : Libpq σ) (w : World σ) (query : String)
    (params : List String) (h : w.conn.isOK L = true) :
    (w.PQexecParams L query params).2.sent = w.sent ++ [Stmt.execParams query params] := by
  unfold PQexecParams
  cases hc : w.conn.connection with
  | none => simp [PostgreSQLConnection.isOK, hc] at h
  | some s => rfl

theorem PQexecParams_healthy (L : Libpq σ) (w : World σ) (query : String)
    (params : List String)
    (hv : isResultValid (w.PQexecParams L query params).1 = true) :
    (w.PQexecParams L query params).2.conn.isOK L = true := by
  unfold PQexecParams at hv ⊢
  cases hc : w.conn.connection with
  | none => simp [hc, isResultValid] at hv
  | some s =>
    simp only [hc] at hv ⊢
    simp [PostgreSQLConnection.isOK, L.execParams_ok s query params hv]

theorem control_sent (L : Libpq σ) (w : World σ) (text : String) :
    (w.control L text).2.sent =
      w.sent ++ (if w.conn.isOK L = true then [Stmt.exec text] else []) := by
  unfold control
  by_cases h : w.conn.isOK L = true
  · simp [h, PQclear_sent, PQexec_sent L w text h]
  · simp [h]

theorem control_success (L : Libpq σ) (w : World σ) (text : String)
    (h : (w.control L text).1 = true) :
    (w.control L text).2.conn.isOK L = true ∧
    (w.control L text).2.sent = w.sent ++ [Stmt.exec text] := by
  have hok : w.conn.isOK L = true := by
    by_contra hn
    simp [control, hn] at h
  have hsent := control_sent L w text
  rw [if_pos hok] at hsent
  refine ⟨?_, hsent⟩
  simp only [control, hok] at h ⊢
  simp only [Bool.not_true, Bool.false_eq_true, if_false] at h ⊢
  rw [PQclear_conn]
  apply PQexec_healthy
  have hs : PQresultStatus (w.PQexec L text).1 = .PGRES_COMMAND_OK := by simpa using h
  cases hres : (w.PQexec L text).1 with
  | none => rw [hres] at hs; simp [PQresultStatus] at hs
  | some res =>
    rw [hres] at hs
    simp [isResultValid, hs]

end World

theorem executeQuery_success (L : Libpq σ) (w w1 : World σ) (query : String)
    (r : QueryResult) (h : executeQuery L w query = (.ok r, w1))
    (hr : r.hasError = false) :
    w1.conn.isOK L = true ∧ w1.sent = w.sent ++ [Stmt.exec query] := by
  rw [QueryResult.hasError_eq_false_iff] at hr
  unfold executeQuery at h
  by_cases hok : w.conn.isOK L = true
  · simp only [hok, Bool.not_true, Bool.false_eq_true, if_false] at h
    split at h
    · simp at h
    · rename_i b res hload
      simp only [Prod.mk.injEq, Except.ok.injEq] at h
      obtain ⟨h1, h2⟩ := h
      subst h1
      have hv := QueryResult.loadFromResult_valid_of_no_error _ _ _ _ hload hr
      rw [← h2, World.PQclear_conn, World.PQclear_sent]
      exact ⟨World.PQexec_healthy L w query hv, World.PQexec_sent L w query hok⟩
  · simp only [hok, Bool.not_false, if_true] at h
    simp only [Prod.mk.injEq, Except.ok.injEq] at h
    rw [← h.1] at hr
    have hne : ("Connection is not established" : String) ≠ "" := by decide
    exact absurd hr hne

theorem executeQuery_sent (L : Libpq σ) (w w1 : World σ) (query : String)
    (r : QueryResult) (h : executeQuery L w query = (.ok r, w1))
    (hok : w.conn.isOK L = true) :
    w1.sent = w.sent ++ [Stmt.exec query] := by
  unfold executeQuery at h
  simp only [hok, Bool.not_true, Bool.false_eq_true, if_false] at h
  split at h
  · simp at h
  · simp only [Prod.mk.injEq, Except.ok.injEq] at h
    rw [← h.2, World.PQclear_sent]
    exact World.PQexec_sent L w query hok

theorem executeQueryParams_success (L : Libpq σ) (w w1 : World σ) (query : String)
    (params : List String) (r : QueryResult)
    (h : executeQueryParams L w query params = (.ok r, w1))
    (hr : r.hasError = false) :
    w1.conn.isOK L = true ∧ w1.sent = w.sent ++ [Stmt.execParams query params] := by
  rw [QueryResult.hasError_eq_false_iff] at hr
  unfold executeQueryParams at h
  by_cases hok : w.conn.isOK L = true
  · simp only [hok, Bool.not_true, Bool.false_eq_true, if_false] at h
    split at h
    · simp at h
    · rename_i b res hload
      simp only [Prod.mk.injEq, Except.ok.injEq] at h
      obtain ⟨h1, h2⟩ := h
      subst h1
      have hv := QueryResult.loadFromResult_valid_of_no_error _ _ _ _ hload hr
      rw [← h2, World.PQclear_conn, World.PQclear_sent]
      exact ⟨World.PQexecParams_healthy L w query params hv,
        World.PQexecParams_sent L w query params hok⟩
  · simp only [hok, Bool.not_false, if_true] at h
    simp only [Prod.mk.injEq, Except.ok.injEq] at h
    rw [← h.1] at hr
    have hne : ("Connection is not established" : String) ≠ "" := by decide
    exact absurd hr hne

theorem executeQueryParams_sent (L : Libpq σ) (w w1 : World σ) (query : String)
    (params : List String) (r : QueryResult)
    (h : executeQueryParams L w query params = (.ok r, w1))
    (hok : w.conn.isOK L = true) :
    w1.sent = w.sent ++ [Stmt.execParams query params] := by
  unfold executeQueryParams at h
  simp only [hok, Bool.not_true, Bool.false_eq_true, if_false] at h
  split at h
  · simp at h
  · simp only [Prod.mk.injEq, Except.ok.injEq] at h
    rw [← h.2, World.PQclear_sent]
    exact World.PQexecParams_sent L w query params hok

theorem queriesSucceed_body (L : Libpq σ) (pre rest : List String) (w wk : World σ)
    (h : queriesSucceed L w pre = some wk) :
    executeTransactionBody L w (pre ++ rest) = executeTransactionBody L wk rest ∧
    wk.sent = w.sent ++ pre.map Stmt.exec ∧
    (w.conn.isOK L = true → wk.conn.isOK L = true) := by
  induction pre generalizing w with
  | nil =>
    simp only [queriesSucceed, Option.some.injEq] at h
    subst h
    simp
  | cons q t ih =>
    simp only [queriesSucceed] at h
    split at h
    · rename_i r w1 hq
      by_cases hr : r.hasError = true
      · simp [hr] at h
      · have hr2 : r.hasError = false := by simpa using hr
        simp only [hr2, Bool.false_eq_true, if_false] at h
        obtain ⟨hb, hs, _⟩ := ih w1 h
        obtain ⟨hok1, hs1⟩ := executeQuery_success L w w1 q r hq hr2
        refine ⟨?_, ?_, fun _ => (ih w1 h).2.2 hok1⟩
        · simp only [List.cons_append, executeTransactionBody, hq, hr2,
            Bool.false_eq_true, if_false]
          exact hb
        · rw [hs, hs1]; simp
    · simp at h

theorem batchSucceeds_body (L : Libpq σ) (baseQuery : String)
    (pre rest : List (List String)) (w wk : World σ)
    (h : batchSucceeds L baseQuery w pre = some wk) :
    executeBatchBody L baseQuery w (pre ++ rest) = executeBatchBody L baseQuery wk rest ∧
    wk.sent = w.sent ++ pre.map (Stmt.execParams baseQuery) ∧
    (w.conn.isOK L = true → wk.conn.isOK L = true) := by
  induction pre generalizing w with
  | nil =>
    simp only [batchSucceeds, Option.some.injEq] at h
    subst h
    simp
  | cons q t ih =>
    simp only [batchSucceeds] at h
    split at h
    · rename_i r w1 hq
      by_cases hr : r.hasError = true
      · simp [hr] at h
      · have hr2 : r.hasError = false := by simpa using hr
        simp only [hr2, Bool.false_eq_true, if_false] at h
        obtain ⟨hb, hs, _⟩ := ih w1 h
        obtain ⟨hok1, hs1⟩ := executeQueryParams_success L w w1 baseQuery q r hq hr2
        refine ⟨?_, ?_, fun _ => (ih w1 h).2.2 hok1⟩
        · simp only [List.cons_append, executeBatchBody, hq, hr2,
            Bool.false_eq_true, if_false]
          exact hb
        · rw [hs, hs1]; simp
    · simp at h

/-- Statement-list mode, first failing item: the outcome and the statements
sent. -/
theorem executeTransaction_first_failure (L : Libpq σ) (w wk wk1 : World σ)
    (pre post : List String) (query : String) (r : QueryResult)
    (hbegin : (w.beginTransaction L).1 = true)
    (hpre : queriesSucceed L (w.beginTransaction L).2 pre = some wk)
    (hk : executeQuery L wk query = (.ok r, wk1))
    (herr : r.hasError = true) :
    executeTransaction L w (pre ++ query :: post) =
      (.ok false, (wk1.rollbackTransaction L).2) ∧
    (executeTransaction L w (pre ++ query :: post)).2.sent =
      w.sent ++ [Stmt.exec "BEGIN"] ++ pre.map Stmt.exec ++ [Stmt.exec query] ++
        (if wk1.conn.isOK L = true then [Stmt.exec "ROLLBACK"] else []) := by
  obtain ⟨hok1, hs1⟩ := World.control_success L w "BEGIN" hbegin
  obtain ⟨hb, hs, hokk⟩ := queriesSucceed_body L pre (query :: post) _ wk hpre
  have hsk := executeQuery_sent L wk wk1 query r hk (hokk hok1)
  have hbody : executeTransactionBody L wk (query :: post) =
      (.ok false, (wk1.rollbackTransaction L).2) := by
    simp only [executeTransactionBody, hk, herr, if_true]
  have hres : executeTransaction L w (pre ++ query :: post) =
      (.ok false, (wk1.rollbackTransaction L).2) := by
    unfold executeTransaction
    simp only [hbegin, Bool.not_true, Bool.false_eq_true, if_false, hb, hbody]
  refine ⟨hres, ?_⟩
  rw [hres]
  simp only
  rw [World.rollbackTransaction, World.control_sent, hsk, hs]
  unfold World.beginTransaction
  rw [hs1]

/-- Parameterized-batch mode, first failing item: the outcome and the
statements sent. -/
theorem executeBatch_first_failure (L : Libpq σ) (w wk wk1 : World σ)
    (baseQuery : String) (pre post : List (List String)) (params : List String)
    (r : QueryResult)
    (hbegin : (w.beginTransaction L).1 = true)
    (hpre : batchSucceeds L baseQuery (w.beginTransaction L).2 pre = some wk)
    (hk : executeQueryParams L wk baseQuery params = (.ok r, wk1))
    (herr : r.hasError = true) :
    executeBatch L w baseQuery (pre ++ params :: post) =
      (.ok false, (wk1.rollbackTransaction L).2) ∧
    (executeBatch L w baseQuery (pre ++ params :: post)).2.sent =
      w.sent ++ [Stmt.exec "BEGIN"] ++ pre.map (Stmt.execParams baseQuery) ++
        [Stmt.execParams baseQuery params] ++
        (if wk1.conn.isOK L = true then [Stmt.exec "ROLLBACK"] else []) := by
  obtain ⟨hok1, hs1⟩ := World.control_success L w "BEGIN" hbegin
  obtain ⟨hb, hs, hokk⟩ := batchSucceeds_body L baseQuery pre (params :: post) _ wk hpre
  have hsk := executeQueryParams_sent L wk wk1 baseQuery params r hk (hokk hok1)
  have hbody : executeBatchBody L baseQuery wk (params :: post) =
      (.ok false, (wk1.rollbackTransaction L).2) := by
    simp only [executeBatchBody, hk, herr, if_true]
  have hres : executeBatch L w baseQuery (pre ++ params :: post) =
      (.ok false, (wk1.rollbackTransaction L).2) := by
    unfold executeBatch
    simp only [hbegin, Bool.not_true, Bool.false_eq_true, if_false, hb, hbody]
  refine ⟨hres, ?_⟩
  rw [hres]
  simp only
  rw [World.rollbackTransaction, World.control_sent, hsk, hs]
  unfold World.beginTransaction
  rw [hs1]

/-- Statement-list mode, every item succeeds: the outcome and the statements
sent. -/
theorem executeTransaction_all_succeed (L : Libpq σ) (w wn : World σ)
    (queries : List String)
    (hbegin : (w.beginTransaction L).1 = true)
    (hall : queriesSucceed L (w.beginTransaction L).2 queries = some wn) :
    executeTransaction L w queries =
      (.ok (wn.commitTransaction L).1, (wn.commitTransaction L).2) ∧
    (executeTransaction L w queries).2.sent =
      w.sent ++ [Stmt.exec "BEGIN"] ++ queries.map Stmt.exec ++ [Stmt.exec "COMMIT"] := by
  obtain ⟨hok1, hs1⟩ := World.control_success L w "BEGIN" hbegin
  obtain ⟨hb, hs, hokn⟩ := queriesSucceed_body L queries [] _ wn hall
  rw [List.append_nil] at hb
  have hbody : executeTransactionBody L wn [] =
      (.ok (wn.commitTransaction L).1, (wn.commitTransaction L).2) := by
    simp only [executeTransactionBody]
  have hres : executeTransaction L w queries =
      (.ok (wn.commitTransaction L).1, (wn.commitTransaction L).2) := by
    unfold executeTransaction
    simp only [hbegin, Bool.not_true, Bool.false_eq_true, if_false, hb, hbody]
  refine ⟨hres, ?_⟩
  rw [hres]
  simp only
  rw [World.commitTransaction, World.control_sent, if_pos (hokn hok1), hs]
  unfold World.beginTransaction
  rw [hs1]

/-- Parameterized-batch mode, every item succeeds: the outcome and the
statements sent. -/
theorem executeBatch_all_succeed (L : Libpq σ) (w wn : World σ)
    (baseQuery : String) (paramsList : List (List String))
    (hbegin : (w.beginTransaction L).1 = true)
    (hall : batchSucceeds L baseQuery (w.beginTransaction L).2 paramsList = some wn) :
    executeBatch L w baseQuery paramsList =
      (.ok (wn.commitTransaction L).1, (wn.commitTransaction L).2) ∧
    (executeBatch L w baseQuery paramsList).2.sent =
      w.sent ++ [Stmt.exec "BEGIN"] ++ paramsList.map (Stmt.execParams baseQuery) ++
        [Stmt.exec "COMMIT"] := by
  obtain ⟨hok1, hs1⟩ := World.control_success L w "BEGIN" hbegin
  obtain ⟨hb, hs, hokn⟩ := batchSucceeds_body L baseQuery paramsList [] _ wn hall
  rw [List.append_nil] at hb
  have hbody : executeBatchBody L baseQuery wn [] =
      (.ok (wn.commitTransaction L).1, (wn.commitTransaction L).2) := by
    simp only [executeBatchBody]
  have hres : executeBatch L w baseQuery paramsList =
      (.ok (wn.commitTransaction L).1, (wn.commitTransaction L).2) := by
    unfold executeBatch
    simp only [hbegin, Bool.not_true, Bool.false_eq_true, if_false, hb, hbody]
  refine ⟨hres, ?_⟩
  rw [hres]
  simp only
  rw [World.commitTransaction, World.control_sent, if_pos (hokn hok1), hs]
  unfold World.beginTransaction
  rw [hs1]

/-- Claim C1 as written fails when the connection is lost while item `k`
runs: on the sample session that breaks at its third statement, BEGIN and the
first item succeed, the second item comes back with an error message, the call
returns false, and the statements sent are BEGIN and the two items: no
ROLLBACK is sent, in either mode. -/
theorem C1_connection_lost_counterexample :
    ((sampleWorld 3).beginTransaction sampleServer).1 = true ∧
    queriesSucceed sampleServer ((sampleWorld 3).beginTransaction sampleServer).2
        ["INSERT INTO t VALUES (5), (6), (7)"] =
      some { conn := { connection := some 1 },
             sent := [Stmt.exec "BEGIN", Stmt.exec "INSERT INTO t VALUES (5), (6), (7)"],
             cleared := 2 } ∧
    (∃ r w1, executeQuery sampleServer
        { conn := { connection := some 1 },
          sent := [Stmt.exec "BEGIN", Stmt.exec "INSERT INTO t VALUES (5), (6), (7)"],
          cleared := 2 } "SELECT id, name FROM users" = (.ok r, w1) ∧
      r.hasError = true) ∧
    (executeTransaction sampleServer (sampleWorld 3)
        ["INSERT INTO t VALUES (5), (6), (7)", "SELECT id, name FROM users",
         "SELECT id, name FROM users"]).1 = .ok false ∧
    (executeTransaction sampleServer (sampleWorld 3)
        ["INSERT INTO t VALUES (5), (6), (7)", "SELECT id, name FROM users",
         "SELECT id, name FROM users"]).2.sent =
      [Stmt.exec "BEGIN", Stmt.exec "INSERT INTO t VALUES (5), (6), (7)",
       Stmt.exec "SELECT id, name FROM users"] ∧
    (executeTransaction sampleServer (sampleWorld 3)
        ["INSERT INTO t VALUES (5), (6), (7)", "SELECT id, name FROM users",
         "SELECT id, name FROM users"]).2.sent.count (Stmt.exec "ROLLBACK") = 0 ∧
    (executeBatch sampleServer (sampleWorld 3) "INSERT INTO users VALUES ($1, $2)"
        [["1", "Ann"], ["2", "Bob"], ["3", "Cy"]]).1 = .ok false ∧
    (executeBatch sampleServer (sampleWorld 3) "INSERT INTO users VALUES ($1, $2)"
        [["1", "Ann"], ["2", "Bob"], ["3", "Cy"]]).2.sent =
      [Stmt.exec "BEGIN",
       Stmt.execParams "INSERT INTO users VALUES ($1, $2)" ["1", "Ann"],
       Stmt.execParams "INSERT INTO users VALUES ($1, $2)" ["2", "Bob"]] := by
  refine ⟨rfl, rfl, ⟨_, _, rfl, rfl⟩, rfl, rfl, by decide, rfl, rfl⟩

/-- Claim C1, amended: for `executeTransaction` and `executeBatch`, for every
item list and every server behaviour, if BEGIN succeeds and item `k` is the
first item whose materialised result carries an error message, then the
statements sent are BEGIN, the items up to and including `k` in list order,
and then ROLLBACK exactly once if the connection is still healthy after item
`k`, nothing otherwise (`rollbackTransaction` is called exactly once, after
item `k`, and sends its statement on a healthy connection only); no item after
`k` and no COMMIT is sent, and the call returns false. -/
theorem C1_first_failure_rolls_back (L : Libpq σ) (w : World σ) :
    (∀ (pre post : List String) (query : String) (wk wk1 : World σ) (r : QueryResult),
      (w.beginTransaction L).1 = true →
      queriesSucceed L (w.beginTransaction L).2 pre = some wk →
      executeQuery L wk query = (.ok r, wk1) →
      r.hasError = true →
      executeTransaction L w (pre ++ query :: post) =
        (.ok false, (wk1.rollbackTransaction L).2) ∧
      (executeTransaction L w (pre ++ query :: post)).2.sent =
        w.sent ++ [Stmt.exec "BEGIN"] ++ pre.map Stmt.exec ++ [Stmt.exec query] ++
          (if wk1.conn.isOK L = true then [Stmt.exec "ROLLBACK"] else [])) ∧
    (∀ (baseQuery : String) (pre post : List (List String)) (params : List String)
        (wk wk1 : World σ) (r : QueryResult),
      (w.beginTransaction L).1 = true →
      batchSucceeds L baseQuery (w.beginTransaction L).2 pre = some wk →
      executeQueryParams L wk baseQuery params = (.ok r, wk1) →
      r.hasError = true →
      executeBatch L w baseQuery (pre ++ params :: post) =
        (.ok false, (wk1.rollbackTransaction L).2) ∧
      (executeBatch L w baseQuery (pre ++ params :: post)).2.sent =
        w.sent ++ [Stmt.exec "BEGIN"] ++ pre.map (Stmt.execParams baseQuery) ++
          [Stmt.execParams baseQuery params] ++
          (if wk1.conn.isOK L = true then [Stmt.exec "ROLLBACK"] else [])) :=
  ⟨fun pre post query wk wk1 r hbegin hpre hk herr =>
      executeTransaction_first_failure L w wk wk1 pre post query r hbegin hpre hk herr,
   fun baseQuery pre post params wk wk1 r hbegin hpre hk herr =>
      executeBatch_first_failure L w wk wk1 baseQuery pre post params r hbegin hpre hk herr⟩

theorem C1_first_failure_rolls_back_witness :
    (executeTransaction sampleServer (sampleWorld 9)
        ["INSERT INTO t VALUES (5), (6), (7)", "SELEC 1", "SELECT id, name FROM users"]).2.sent =
      [Stmt.exec "BEGIN", Stmt.exec "INSERT INTO t VALUES (5), (6), (7)",
       Stmt.exec "SELEC 1", Stmt.exec "ROLLBACK"] ∧
    (executeBatch sampleServer (sampleWorld 9) "INSERT INTO users VALUES ($1, $2)"
        [["1", "Ann"], ["2"], ["3", "Cy"]]).2.sent =
      [Stmt.exec "BEGIN",
       Stmt.execParams "INSERT INTO users VALUES ($1, $2)" ["1", "Ann"],
       Stmt.execParams "INSERT INTO users VALUES ($1, $2)" ["2"],
       Stmt.exec "ROLLBACK"] :=
  ⟨((C1_first_failure_rolls_back sampleServer (sampleWorld 9)).1
      ["INSERT INTO t VALUES (5), (6), (7)"] ["SELECT id, name FROM users"] "SELEC 1"
      { conn := { connection := some 7 },
        sent := [Stmt.exec "BEGIN", Stmt.exec "INSERT INTO t VALUES (5), (6), (7)"],
        cleared := 2 }
      { conn := { connection := some 6 },
        sent := [Stmt.exec "BEGIN", Stmt.exec "INSERT INTO t VALUES (5), (6), (7)",
                 Stmt.exec "SELEC 1"],
        cleared := 3 }
      { QueryResult.fresh with errorMessage := "Invalid result" }
      rfl rfl rfl rfl).2,
   ((C1_first_failure_rolls_back sampleServer (sampleWorld 9)).2
      "INSERT INTO users VALUES ($1, $2)" [["1", "Ann"]] [["3", "Cy"]] ["2"]
      { conn := { connection := some 7 },
        sent := [Stmt.exec "BEGIN",
                 Stmt.execParams "INSERT INTO users VALUES ($1, $2)" ["1", "Ann"]],
        cleared := 2 }
      { conn := { connection := some 6 },
        sent := [Stmt.exec "BEGIN",
                 Stmt.execParams "INSERT INTO users VALUES ($1, $2)" ["1", "Ann"],
                 Stmt.execParams "INSERT INTO users VALUES ($1, $2)" ["2"]],
        cleared := 3 }
      { QueryResult.fresh with errorMessage := "Invalid result" }
      rfl rfl rfl rfl).2⟩

/-- Claim C2: for `executeTransaction` and `executeBatch`, for every item
list, the empty one included, if BEGIN succeeds and every item completes
without an error message, then the statements sent are BEGIN, every item once
in list order (in batch mode the same base text with the i-th parameter set),
and COMMIT once after the last item, with no ROLLBACK; the call returns
exactly the boolean that `commitTransaction` returned. -/
theorem C2_all_succeed_commits (L : Libpq σ) (w : World σ) :
    (∀ (queries : List String) (wn : World σ),
      (w.beginTransaction L).1 = true →
      queriesSucceed L (w.beginTransaction L).2 queries = some wn →
      executeTransaction L w queries =
        (.ok (wn.commitTransaction L).1, (wn.commitTransaction L).2) ∧
      (executeTransaction L w queries).2.sent =
        w.sent ++ [Stmt.exec "BEGIN"] ++ queries.map Stmt.exec ++ [Stmt.exec "COMMIT"]) ∧
    (∀ (baseQuery : String) (paramsList : List (List String)) (wn : World σ),
      (w.beginTransaction L).1 = true →
      batchSucceeds L baseQuery (w.beginTransaction L).2 paramsList = some wn →
      executeBatch L w baseQuery paramsList =
        (.ok (wn.commitTransaction L).1, (wn.commitTransaction L).2) ∧
      (executeBatch L w baseQuery paramsList).2.sent =
        w.sent ++ [Stmt.exec "BEGIN"] ++ paramsList.map (Stmt.execParams baseQuery) ++
          [Stmt.exec "COMMIT"]) :=
  ⟨fun queries wn hbegin hall => executeTransaction_all_succeed L w wn queries hbegin hall,
   fun baseQuery paramsList wn hbegin hall =>
      executeBatch_all_succeed L w wn baseQuery paramsList hbegin hall⟩

theorem C2_all_succeed_commits_witness :
    (executeTransaction sampleServer (sampleWorld 9)
        ["INSERT INTO t VALUES (5), (6), (7)", "SELECT id, name FROM users"]).1 = .ok true ∧
    (executeTransaction sampleServer (sampleWorld 9)
        ["INSERT INTO t VALUES (5), (6), (7)", "SELECT id, name FROM users"]).2.sent =
      [Stmt.exec "BEGIN", Stmt.exec "INSERT INTO t VALUES (5), (6), (7)",
       Stmt.exec "SELECT id, name FROM users", Stmt.exec "COMMIT"] ∧
    (executeTransaction sampleServer (sampleWorld 2) []).1 = .ok false ∧
    (executeTransaction sampleServer (sampleWorld 2) []).2.sent =
      [Stmt.exec "BEGIN", Stmt.exec "COMMIT"] ∧
    (executeBatch sampleServer (sampleWorld 9) "INSERT INTO users VALUES ($1, $2)"
        [["1", "Ann"], ["2", "Bob"]]).1 = .ok true ∧
    (executeBatch sampleServer (sampleWorld 9) "INSERT INTO users VALUES ($1, $2)"
        [["1", "Ann"], ["2", "Bob"]]).2.sent =
      [Stmt.exec "BEGIN",
       Stmt.execParams "INSERT INTO users VALUES ($1, $2)" ["1", "Ann"],
       Stmt.execParams "INSERT INTO users VALUES ($1, $2)" ["2", "Bob"],
       Stmt.exec "COMMIT"] :=
  ⟨congrArg Prod.fst ((C2_all_succeed_commits sampleServer (sampleWorld 9)).1
      ["INSERT INTO t VALUES (5), (6), (7)", "SELECT id, name FROM users"]
      { conn := { connection := some 6 },
        sent := [Stmt.exec "BEGIN", Stmt.exec "INSERT INTO t VALUES (5), (6), (7)",
                 Stmt.exec "SELECT id, name FROM users"],
        cleared := 3 } rfl rfl).1,
   ((C2_all_succeed_commits sampleServer (sampleWorld 9)).1
      ["INSERT INTO t VALUES (5), (6), (7)", "SELECT id, name FROM users"]
      { conn := { connection := some 6 },
        sent := [Stmt.exec "BEGIN", Stmt.exec "INSERT INTO t VALUES (5), (6), (7)",
                 Stmt.exec "SELECT id, name FROM users"],
        cleared := 3 } rfl rfl).2,
   congrArg Prod.fst ((C2_all_succeed_commits sampleServer (sampleWorld 2)).1 []
      { conn := { connection := some 1 }, sent := [Stmt.exec "BEGIN"], cleared := 1 }
      rfl rfl).1,
   ((C2_all_succeed_commits sampleServer (sampleWorld 2)).1 []
      { conn := { connection := some 1 }, sent := [Stmt.exec "BEGIN"], cleared := 1 }
      rfl rfl).2,
   congrArg Prod.fst ((C2_all_succeed_commits sampleServer (sampleWorld 9)).2
      "INSERT INTO users VALUES ($1, $2)" [["1", "Ann"], ["2", "Bob"]]
      { conn := { connection := some 6 },
        sent := [Stmt.exec "BEGIN",
                 Stmt.execParams "INSERT INTO users VALUES ($1, $2)" ["1", "Ann"],
                 Stmt.execParams "INSERT INTO users VALUES ($1, $2)" ["2", "Bob"]],
        cleared := 3 } rfl rfl).1,
   ((C2_all_succeed_commits sampleServer (sampleWorld 9)).2
      "INSERT INTO users VALUES ($1, $2)" [["1", "Ann"], ["2", "Bob"]]
      { conn := { connection := some 6 },
        sent := [Stmt.exec "BEGIN",
                 Stmt.execParams "INSERT INTO users VALUES ($1, $2)" ["1", "Ann"],
                 Stmt.execParams "INSERT INTO users VALUES ($1, $2)" ["2", "Bob"]],
        cleared := 3 } rfl rfl).2⟩


/-! ## Theorems: the Statement Executor -/

theorem PQresultStatus_isSome_of_success (result : Option PGresult)
    (h : isSuccessStatus (PQresultStatus result) = true) : result.isSome = true := by
  cases result with
  | none => simp [isSuccessStatus, PQresultStatus] at h
  | some r => rfl

theorem classifiedOutcome_of_tail (w : World σ) (raw : Option PGresult × World σ)
    (hc : raw.2.cleared = w.cleared) :
    ClassifiedOutcome w raw
      (if (PQresultStatus raw.1 != ExecStatusType.PGRES_COMMAND_OK &&
            PQresultStatus raw.1 != ExecStatusType.PGRES_TUPLES_OK) = true then
        (none, raw.2.PQclear raw.1)
      else (raw.1, raw.2)) := by
  by_cases hs : isSuccessStatus (PQresultStatus raw.1) = true
  · have hsome := PQresultStatus_isSome_of_success raw.1 hs
    have hcond : ¬ ((PQresultStatus raw.1 != ExecStatusType.PGRES_COMMAND_OK &&
        PQresultStatus raw.1 != ExecStatusType.PGRES_TUPLES_OK) = true) := by
      simp only [isSuccessStatus, Bool.or_eq_true, beq_iff_eq] at hs
      rcases hs with hs | hs <;> simp [hs]
    rw [if_neg hcond]
    refine ⟨rfl, rfl, ?_, ?_, ?_⟩
    · rw [hs]; exact hsome
    · intro _; exact ⟨rfl, hsome, hc⟩
    · intro hf; rw [hs] at hf; exact absurd hf (by decide)
  · have hs2 : isSuccessStatus (PQresultStatus raw.1) = false := by simpa using hs
    have hcond : (PQresultStatus raw.1 != ExecStatusType.PGRES_COMMAND_OK &&
        PQresultStatus raw.1 != ExecStatusType.PGRES_TUPLES_OK) = true := by
      simp only [isSuccessStatus, Bool.or_eq_false_iff, beq_eq_false_iff_ne] at hs2
      simp [hs2.1, hs2.2]
    rw [if_pos hcond]
    refine ⟨World.PQclear_conn _ _, World.PQclear_sent _ _, ?_, ?_, ?_⟩
    · rw [hs2]; rfl
    · intro ht; rw [hs2] at ht; exact absurd ht (by decide)
    · intro _
      refine ⟨rfl, ?_⟩
      unfold World.PQclear
      split <;> simp [hc]

namespace World

theorem PQexec_cleared (L : Libpq σ) (w : World σ) (query : String) :
    (w.PQexec L query).2.cleared = w.cleared := by
  unfold PQexec; split <;> rfl

theorem PQexecParams_cleared (L : Libpq σ) (w : World σ) (query : String)
    (params : List String) : (w.PQexecParams L query params).2.cleared = w.cleared := by
  unfold PQexecParams; split <;> rfl

theorem PQexecParamsNullable_cleared (L : Libpq σ) (w : World σ) (query : String)
    (params : List (Option String)) :
    (w.PQexecParamsNullable L query params).2.cleared = w.cleared := by
  unfold PQexecParamsNullable; split <;> rfl

theorem PQexecPrepared_cleared (L : Libpq σ) (w : World σ) (stmtName : String)
    (params : List String) : (w.PQexecPrepared L stmtName params).2.cleared = w.cleared := by
  unfold PQexecPrepared; split <;> rfl

theorem PQexecPrepared_sent (L : Libpq σ) (w : World σ) (stmtName : String)
    (params : List String) (h : w.conn.isOK L = true) :
    (w.PQexecPrepared L stmtName params).2.sent =
      w.sent ++ [Stmt.execPrepared stmtName params] := by
  unfold PQexecPrepared
  cases hc : w.conn.connection with
  | none => simp [PostgreSQLConnection.isOK, hc] at h
  | some s => rfl

theorem PQexecParamsNullable_sent (L : Libpq σ) (w : World σ) (query : String)
    (params : List (Option String)) (h : w.conn.isOK L = true) :
    (w.PQexecParamsNullable L query params).2.sent =
      w.sent ++ [Stmt.execParamsNullable query params] := by
  unfold PQexecParamsNullable
  cases hc : w.conn.connection with
  | none => simp [PostgreSQLConnection.isOK, hc] at h
  | some s => rfl

end World

namespace PostgreSQLQuery

theorem execute_classified (L : Libpq σ) (w : World σ) (query : String)
    (hok : w.conn.isOK L = true) (hq : query ≠ "") :
    ClassifiedOutcome w (w.PQexec L query) (execute L w query) := by
  have hne : query.isEmpty = false := by
    cases h : query.isEmpty with
    | false => rfl
    | true => exact absurd ((String.isEmpty_iff query).mp h) hq
  unfold execute
  simp only [isConnectionOK, hok, hne, Bool.not_true, Bool.false_eq_true, if_false]
  exact classifiedOutcome_of_tail w _ (World.PQexec_cleared L w query)

theorem executeParams_classified (L : Libpq σ) (w : World σ) (query : String)
    (params : List String) (hok : w.conn.isOK L = true) (hq : query ≠ "") :
    ClassifiedOutcome w (w.PQexecParams L query params) (executeParams L w query params) := by
  have hne : query.isEmpty = false := by
    cases h : query.isEmpty with
    | false => rfl
    | true => exact absurd ((String.isEmpty_iff query).mp h) hq
  unfold executeParams
  simp only [isConnectionOK, hok, hne, Bool.not_true, Bool.false_eq_true, if_false]
  exact classifiedOutcome_of_tail w _ (World.PQexecParams_cleared L w query params)

theorem executeParamsBorrowed_classified (L : Libpq σ) (w : World σ) (query : String)
    (params : List (Option String)) (hok : w.conn.isOK L = true) :
    ClassifiedOutcome w (w.PQexecParamsNullable L query params)
      (executeParamsBorrowed L w query params) := by
  unfold executeParamsBorrowed
  simp only [isConnectionOK, hok, Bool.not_true, Bool.false_eq_true, if_false]
  exact classifiedOutcome_of_tail w _ (World.PQexecParamsNullable_cleared L w query params)

theorem executePrepared_classified (L : Libpq σ) (w : World σ) (stmtName : String)
    (params : List String) (hok : w.conn.isOK L = true) :
    ClassifiedOutcome w (w.PQexecPrepared L stmtName params)
      (executePrepared L w stmtName params) := by
  unfold executePrepared
  simp only [isConnectionOK, hok, Bool.not_true, Bool.false_eq_true, if_false]
  exact classifiedOutcome_of_tail w _ (World.PQexecPrepared_cleared L w stmtName params)

theorem executeCommand_classified (L : Libpq σ) (w : World σ) (query : String)
    (hok : w.conn.isOK L = true) (hq : query ≠ "") :
    (executeCommand L w query).1 = isSuccessStatus (PQresultStatus (w.PQexec L query).1) ∧
    (executeCommand L w query).2.cleared =
      w.cleared + (if (w.PQexec L query).1.isSome then 1 else 0) := by
  obtain ⟨_, _, hsome, hs, hf⟩ := execute_classified L w query hok hq
  unfold executeCommand
  by_cases h : isSuccessStatus (PQresultStatus (w.PQexec L query).1) = true
  · obtain ⟨h1, h2, h3⟩ := hs h
    have hex : (execute L w query).1.isSome = true := by rw [hsome, h]
    rw [if_pos hex]
    refine ⟨h.symm, ?_⟩
    unfold World.PQclear
    rw [if_pos hex]
    simp [h3, h2]
  · have h0 : isSuccessStatus (PQresultStatus (w.PQexec L query).1) = false := by
      simpa using h
    obtain ⟨h1, h2⟩ := hf h0
    have hex : ¬ ((execute L w query).1.isSome = true) := by rw [h1]; simp
    rw [if_neg hex]
    exact ⟨h0.symm, h2⟩

end PostgreSQLQuery

namespace PostgreSQLQuery

/-- Claim C11 as written fails for `executePrepared`: on a healthy sample
session, the empty statement name is sent to the server through
`PQexecPrepared`; the pointer overload of `executeParams` sends the empty
statement text as well. -/
theorem C11_empty_name_sent_counterexample :
    (sampleWorld 9).conn.isOK sampleServer = true ∧
    (executePrepared sampleServer (sampleWorld 9) "" []).2.sent =
      [Stmt.execPrepared "" []] ∧
    (executePrepared sampleServer (sampleWorld 9) "" []).2.sent ≠ (sampleWorld 9).sent ∧
    (executeParamsBorrowed sampleServer (sampleWorld 9) "" []).2.sent =
      [Stmt.execParamsNullable "" []] := by
  refine ⟨rfl, rfl, by decide, rfl⟩

/-- Claim C11, amended: `execute` and the owned-string overload of
`executeParams` return the empty-result signal and send nothing when the
connection is not healthy or the statement text is empty; the pointer overload
of `executeParams` and `executePrepared` return the empty-result signal and
send nothing when the connection is not healthy; `executePrepared` does not
test the statement name, and on a healthy connection it sends every name, the
empty one included, to the server. -/
theorem C11_empty_result_without_contact (L : Libpq σ) (w : World σ) (query : String)
    (params : List String) (borrowed : List (Option String)) :
    (w.conn.isOK L = false ∨ query = "" → execute L w query = (none, w)) ∧
    (w.conn.isOK L = false ∨ query = "" →
      executeParams L w query params = (none, w)) ∧
    (w.conn.isOK L = false → executeParamsBorrowed L w query borrowed = (none, w)) ∧
    (w.conn.isOK L = false → executePrepared L w query params = (none, w)) ∧
    (w.conn.isOK L = true →
      (executePrepared L w query params).2.sent =
        w.sent ++ [Stmt.execPrepared query params]) := by
  refine ⟨?_, ?_, ?_, ?_, ?_⟩
  · intro h
    unfold execute
    rcases h with h | h
    · simp [isConnectionOK, h]
    · subst h
      by_cases hok : w.conn.isOK L = true
      · simp only [isConnectionOK, hok, Bool.not_true, Bool.false_eq_true, if_false]
        rfl
      · simp [isConnectionOK, hok]
  · intro h
    unfold executeParams
    rcases h with h | h
    · simp [isConnectionOK, h]
    · subst h
      by_cases hok : w.conn.isOK L = true
      · simp only [isConnectionOK, hok, Bool.not_true, Bool.false_eq_true, if_false]
        rfl
      · simp [isConnectionOK, hok]
  · intro h
    simp [executeParamsBorrowed, isConnectionOK, h]
  · intro h
    simp [executePrepared, isConnectionOK, h]
  · intro h
    rw [(executePrepared_classified L w query params h).2.1]
    exact World.PQexecPrepared_sent L w query params h

theorem C11_empty_result_without_contact_witness :
    execute sampleServer (sampleWorld 0) "SELECT id, name FROM users" =
      (none, sampleWorld 0) ∧
    execute sampleServer (sampleWorld 9) "" = (none, sampleWorld 9) ∧
    executeParams sampleServer (sampleWorld 0) "INSERT INTO users VALUES ($1, $2)"
      ["1", "Ann"] = (none, sampleWorld 0) ∧
    executeParams sampleServer (sampleWorld 9) "" ["1", "Ann"] = (none, sampleWorld 9) ∧
    executeParamsBorrowed sampleServer (sampleWorld 0) "INSERT INTO users VALUES ($1, $2)"
      [some "1", none] = (none, sampleWorld 0) ∧
    executePrepared sampleServer (sampleWorld 0) "all_users" [] = (none, sampleWorld 0) ∧
    (executePrepared sampleServer (sampleWorld 9) "all_users" []).2.sent =
      (sampleWorld 9).sent ++ [Stmt.execPrepared "all_users" []] :=
  ⟨(C11_empty_result_without_contact sampleServer (sampleWorld 0)
      "SELECT id, name FROM users" [] []).1 (Or.inl rfl),
   (C11_empty_result_without_contact sampleServer (sampleWorld 9) "" [] []).1 (Or.inr rfl),
   (C11_empty_result_without_contact sampleServer (sampleWorld 0)
      "INSERT INTO users VALUES ($1, $2)" ["1", "Ann"] []).2.1 (Or.inl rfl),
   (C11_empty_result_without_contact sampleServer (sampleWorld 9) "" ["1", "Ann"]
      []).2.1 (Or.inr rfl),
   (C11_empty_result_without_contact sampleServer (sampleWorld 0)
      "INSERT INTO users VALUES ($1, $2)" [] [some "1", none]).2.2.1 rfl,
   (C11_empty_result_without_contact sampleServer (sampleWorld 0) "all_users" []
      []).2.2.2.1 rfl,
   (C11_empty_result_without_contact sampleServer (sampleWorld 9) "all_users" []
      []).2.2.2.2 rfl⟩

/-- Claim C12: on a healthy connection, each of `execute`, `executeParams`
(both overloads) and `executePrepared`, for a statement that is sent to the
server, returns the native result itself, non-null and not released, exactly
when the status is command-OK or tuples-OK, and for every other status
releases the native result once and returns null; the four paths classify
every status alike, and `executeCommand` returns true exactly for these two
statuses, releasing the native result once in either case. -/
theorem C12_status_classification (L : Libpq σ) (w : World σ) (query : String)
    (params : List String) (borrowed : List (Option String))
    (hok : w.conn.isOK L = true) :
    (query ≠ "" → ClassifiedOutcome w (w.PQexec L query) (execute L w query)) ∧
    (query ≠ "" →
      ClassifiedOutcome w (w.PQexecParams L query params)
        (executeParams L w query params)) ∧
    ClassifiedOutcome w (w.PQexecParamsNullable L query borrowed)
      (executeParamsBorrowed L w query borrowed) ∧
    ClassifiedOutcome w (w.PQexecPrepared L query params)
      (executePrepared L w query params) ∧
    (query ≠ "" →
      (executeCommand L w query).1 =
        isSuccessStatus (PQresultStatus (w.PQexec L query).1) ∧
      (executeCommand L w query).2.cleared =
        w.cleared + (if (w.PQexec L query).1.isSome then 1 else 0)) :=
  ⟨execute_classified L w query hok,
   executeParams_classified L w query params hok,
   executeParamsBorrowed_classified L w query borrowed hok,
   executePrepared_classified L w query params hok,
   executeCommand_classified L w query hok⟩

theorem C12_status_classification_witness :
    (sampleWorld 9).conn.isOK sampleServer = true ∧
    ClassifiedOutcome (sampleWorld 9)
      ((sampleWorld 9).PQexec sampleServer "SELECT id, name FROM users")
      (execute sampleServer (sampleWorld 9) "SELECT id, name FROM users") ∧
    (execute sampleServer (sampleWorld 9) "SELECT id, name FROM users").1.isSome = true ∧
    (execute sampleServer (sampleWorld 9) "SELECT id, name FROM users").2.cleared = 0 ∧
    (execute sampleServer (sampleWorld 9) "SELEC 1").1.isSome = false ∧
    (execute sampleServer (sampleWorld 9) "SELEC 1").2.cleared = 1 ∧
    (executeCommand sampleServer (sampleWorld 9) "CREATE TABLE t(id INT)").1 = true ∧
    (executeCommand sampleServer (sampleWorld 9) "CREATE TABLE t(id INT)").2.cleared = 1 ∧
    (executeCommand sampleServer (sampleWorld 9) "SELEC 1").1 = false ∧
    ClassifiedOutcome (sampleWorld 9)
      ((sampleWorld 9).PQexecParams sampleServer "INSERT INTO users VALUES ($1, $2)"
        ["1", "Ann"])
      (executeParams sampleServer (sampleWorld 9) "INSERT INTO users VALUES ($1, $2)"
        ["1", "Ann"]) ∧
    (executeCommand sampleServer (sampleWorld 9) "SELEC 1").1 =
      isSuccessStatus
        (PQresultStatus ((sampleWorld 9).PQexec sampleServer "SELEC 1").1) :=
  ⟨rfl,
   (C12_status_classification sampleServer (sampleWorld 9) "SELECT id, name FROM users"
      [] [] rfl).1 (by decide),
   rfl, rfl, rfl, rfl, rfl, rfl, rfl,
   (C12_status_classification sampleServer (sampleWorld 9)
      "INSERT INTO users VALUES ($1, $2)" ["1", "Ann"] [] rfl).2.1 (by decide),
   ((C12_status_classification sampleServer (sampleWorld 9) "SELEC 1" [] []
      rfl).2.2.2.2 (by decide)).1⟩

end PostgreSQLQuery


/-! ## Theorems: exceptions, a failed BEGIN, and `disconnect` -/

theorem QueryResult.loadFromResult_valid_of_raise (self : QueryResult)
    (result : Option PGresult) (e : StdException) (r : QueryResult)
    (h : self.loadFromResult result = (.error e, r)) :
    isResultValid result = true := by
  by_contra hv
  have hv2 : isResultValid result = false := by simpa using hv
  simp [QueryResult.loadFromResult, hv2] at h

theorem executeQuery_raise (L : Libpq σ) (w w1 : World σ) (query : String)
    (e : StdException) (h : executeQuery L w query = (.error e, w1)) :
    w1.conn.isOK L = true ∧ w1.sent = w.sent ++ [Stmt.exec query] ∧
    w1.cleared = w.cleared := by
  unfold executeQuery at h
  by_cases hok : w.conn.isOK L = true
  · simp only [hok, Bool.not_true, Bool.false_eq_true, if_false] at h
    split at h
    · rename_i e1 res hload
      simp only [Prod.mk.injEq] at h
      have hv := QueryResult.loadFromResult_valid_of_raise _ _ _ _ hload
      rw [← h.2]
      exact ⟨World.PQexec_healthy L w query hv, World.PQexec_sent L w query hok,
        World.PQexec_cleared L w query⟩
    · simp at h
  · simp only [hok, Bool.not_false, if_true] at h
    simp at h

theorem executeQueryParams_raise (L : Libpq σ) (w w1 : World σ) (query : String)
    (params : List String) (e : StdException)
    (h : executeQueryParams L w query params = (.error e, w1)) :
    w1.conn.isOK L = true ∧ w1.sent = w.sent ++ [Stmt.execParams query params] ∧
    w1.cleared = w.cleared := by
  unfold executeQueryParams at h
  by_cases hok : w.conn.isOK L = true
  · simp only [hok, Bool.not_true, Bool.false_eq_true, if_false] at h
    split at h
    · rename_i e1 res hload
      simp only [Prod.mk.injEq] at h
      have hv := QueryResult.loadFromResult_valid_of_raise _ _ _ _ hload
      rw [← h.2]
      exact ⟨World.PQexecParams_healthy L w query params hv,
        World.PQexecParams_sent L w query params hok,
        World.PQexecParams_cleared L w query params⟩
    · simp at h
  · simp only [hok, Bool.not_false, if_true] at h
    simp at h

/-- Statement-list mode, an item raises: the outcome and the statements
sent. -/
theorem executeTransaction_raise (L : Libpq σ) (w wk wk1 : World σ)
    (pre post : List String) (query : String) (e : StdException)
    (hbegin : (w.beginTransaction L).1 = true)
    (hpre : queriesSucceed L (w.beginTransaction L).2 pre = some wk)
    (hk : executeQuery L wk query = (.error e, wk1)) :
    executeTransaction L w (pre ++ query :: post) =
      (.error e, (wk1.rollbackTransaction L).2) ∧
    (executeTransaction L w (pre ++ query :: post)).2.sent =
      w.sent ++ [Stmt.exec "BEGIN"] ++ pre.map Stmt.exec ++ [Stmt.exec query] ++
        [Stmt.exec "ROLLBACK"] := by
  obtain ⟨_, hs1⟩ := World.control_success L w "BEGIN" hbegin
  obtain ⟨hb, hs, _⟩ := queriesSucceed_body L pre (query :: post) _ wk hpre
  obtain ⟨hok1, hsk, _⟩ := executeQuery_raise L wk wk1 query e hk
  have hbody : executeTransactionBody L wk (query :: post) = (.error e, wk1) := by
    simp only [executeTransactionBody, hk]
  have hres : executeTransaction L w (pre ++ query :: post) =
      (.error e, (wk1.rollbackTransaction L).2) := by
    unfold executeTransaction
    simp only [hbegin, Bool.not_true, Bool.false_eq_true, if_false, hb, hbody]
  refine ⟨hres, ?_⟩
  rw [hres]
  simp only
  rw [World.rollbackTransaction, World.control_sent, if_pos hok1, hsk, hs]
  unfold World.beginTransaction
  rw [hs1]

/-- Parameterized-batch mode, an item raises: the outcome and the statements
sent. -/
theorem executeBatch_raise (L : Libpq σ) (w wk wk1 : World σ) (baseQuery : String)
    (pre post : List (List String)) (params : List String) (e : StdException)
    (hbegin : (w.beginTransaction L).1 = true)
    (hpre : batchSucceeds L baseQuery (w.beginTransaction L).2 pre = some wk)
    (hk : executeQueryParams L wk baseQuery params = (.error e, wk1)) :
    executeBatch L w baseQuery (pre ++ params :: post) =
      (.error e, (wk1.rollbackTransaction L).2) ∧
    (executeBatch L w baseQuery (pre ++ params :: post)).2.sent =
      w.sent ++ [Stmt.exec "BEGIN"] ++ pre.map (Stmt.execParams baseQuery) ++
        [Stmt.execParams baseQuery params] ++ [Stmt.exec "ROLLBACK"] := by
  obtain ⟨_, hs1⟩ := World.control_success L w "BEGIN" hbegin
  obtain ⟨hb, hs, _⟩ := batchSucceeds_body L baseQuery pre (params :: post) _ wk hpre
  obtain ⟨hok1, hsk, _⟩ := executeQueryParams_raise L wk wk1 baseQuery params e hk
  have hbody : executeBatchBody L baseQuery wk (params :: post) = (.error e, wk1) := by
    simp only [executeBatchBody, hk]
  have hres : executeBatch L w baseQuery (pre ++ params :: post) =
      (.error e, (wk1.rollbackTransaction L).2) := by
    unfold executeBatch
    simp only [hbegin, Bool.not_true, Bool.false_eq_true, if_false, hb, hbody]
  refine ⟨hres, ?_⟩
  rw [hres]
  simp only
  rw [World.rollbackTransaction, World.control_sent, if_pos hok1, hsk, hs]
  unfold World.beginTransaction
  rw [hs1]

/-- Claim C13 fails on the code on the path where materialisation raises: for
CREATE TABLE the server answers command-OK with an empty count, the native
result is obtained, `loadFromResult` raises and `PQclear` is never reached, so
the result is released zero times, in `executeQuery` and in
`executeQueryParams`; on the paths that return, it is released once. -/
theorem C13_result_not_released_on_raise :
    (executeQuery sampleServer (sampleWorld 9) "CREATE TABLE t(id INT)").1 =
      .error .invalid_argument ∧
    ((sampleWorld 9).PQexec sampleServer "CREATE TABLE t(id INT)").1.isSome = true ∧
    (executeQuery sampleServer (sampleWorld 9) "CREATE TABLE t(id INT)").2.sent =
      [Stmt.exec "CREATE TABLE t(id INT)"] ∧
    (executeQuery sampleServer (sampleWorld 9) "CREATE TABLE t(id INT)").2.cleared = 0 ∧
    (executeQueryParams sampleServer (sampleWorld 9) "CREATE TABLE t(id INT)" []).1 =
      .error .invalid_argument ∧
    (executeQueryParams sampleServer (sampleWorld 9) "CREATE TABLE t(id INT)"
      []).2.cleared = 0 ∧
    (executeQuery sampleServer (sampleWorld 9) "SELECT id, name FROM users").2.cleared
      = 1 ∧
    (executeQuery sampleServer (sampleWorld 9) "SELEC 1").2.cleared = 1 := by
  refine ⟨rfl, rfl, rfl, rfl, rfl, rfl, rfl, rfl⟩

/-- Claim C14: for `executeTransaction` and `executeBatch`, if BEGIN succeeds
and, after items that completed without an error message, an item raises,
then the statements sent are BEGIN, the items up to and including that one,
and ROLLBACK exactly once; the call ends with the same exception, after the
rollback; no later item and no COMMIT is sent. -/
theorem C14_raise_rolls_back_and_rethrows (L : Libpq σ) (w : World σ) :
    (∀ (pre post : List String) (query : String) (wk wk1 : World σ) (e : StdException),
      (w.beginTransaction L).1 = true →
      queriesSucceed L (w.beginTransaction L).2 pre = some wk →
      executeQuery L wk query = (.error e, wk1) →
      executeTransaction L w (pre ++ query :: post) =
        (.error e, (wk1.rollbackTransaction L).2) ∧
      (executeTransaction L w (pre ++ query :: post)).2.sent =
        w.sent ++ [Stmt.exec "BEGIN"] ++ pre.map Stmt.exec ++ [Stmt.exec query] ++
          [Stmt.exec "ROLLBACK"]) ∧
    (∀ (baseQuery : String) (pre post : List (List String)) (params : List String)
        (wk wk1 : World σ) (e : StdException),
      (w.beginTransaction L).1 = true →
      batchSucceeds L baseQuery (w.beginTransaction L).2 pre = some wk →
      executeQueryParams L wk baseQuery params = (.error e, wk1) →
      executeBatch L w baseQuery (pre ++ params :: post) =
        (.error e, (wk1.rollbackTransaction L).2) ∧
      (executeBatch L w baseQuery (pre ++ params :: post)).2.sent =
        w.sent ++ [Stmt.exec "BEGIN"] ++ pre.map (Stmt.execParams baseQuery) ++
          [Stmt.execParams baseQuery params] ++ [Stmt.exec "ROLLBACK"]) :=
  ⟨fun pre post query wk wk1 e hbegin hpre hk =>
      executeTransaction_raise L w wk wk1 pre post query e hbegin hpre hk,
   fun baseQuery pre post params wk wk1 e hbegin hpre hk =>
      executeBatch_raise L w wk wk1 baseQuery pre post params e hbegin hpre hk⟩

theorem C14_raise_rolls_back_and_rethrows_witness :
    (executeTransaction sampleServer (sampleWorld 9)
        ["INSERT INTO t VALUES (5), (6), (7)", "CREATE TABLE t(id INT)",
         "SELECT id, name FROM users"]).1 = .error .invalid_argument ∧
    (executeTransaction sampleServer (sampleWorld 9)
        ["INSERT INTO t VALUES (5), (6), (7)", "CREATE TABLE t(id INT)",
         "SELECT id, name FROM users"]).2.sent =
      [Stmt.exec "BEGIN", Stmt.exec "INSERT INTO t VALUES (5), (6), (7)",
       Stmt.exec "CREATE TABLE t(id INT)", Stmt.exec "ROLLBACK"] ∧
    (executeBatch sampleServer (sampleWorld 9) "CREATE TABLE t(id INT)" [[], []]).1 =
      .error .invalid_argument ∧
    (executeBatch sampleServer (sampleWorld 9) "CREATE TABLE t(id INT)" [[], []]).2.sent =
      [Stmt.exec "BEGIN", Stmt.execParams "CREATE TABLE t(id INT)" [],
       Stmt.exec "ROLLBACK"] :=
  ⟨congrArg Prod.fst ((C14_raise_rolls_back_and_rethrows sampleServer (sampleWorld 9)).1
      ["INSERT INTO t VALUES (5), (6), (7)"] ["SELECT id, name FROM users"]
      "CREATE TABLE t(id INT)"
      { conn := { connection := some 7 },
        sent := [Stmt.exec "BEGIN", Stmt.exec "INSERT INTO t VALUES (5), (6), (7)"],
        cleared := 2 }
      { conn := { connection := some 6 },
        sent := [Stmt.exec "BEGIN", Stmt.exec "INSERT INTO t VALUES (5), (6), (7)",
                 Stmt.exec "CREATE TABLE t(id INT)"],
        cleared := 2 }
      .invalid_argument rfl rfl rfl).1,
   ((C14_raise_rolls_back_and_rethrows sampleServer (sampleWorld 9)).1
      ["INSERT INTO t VALUES (5), (6), (7)"] ["SELECT id, name FROM users"]
      "CREATE TABLE t(id INT)"
      { conn := { connection := some 7 },
        sent := [Stmt.exec "BEGIN", Stmt.exec "INSERT INTO t VALUES (5), (6), (7)"],
        cleared := 2 }
      { conn := { connection := some 6 },
        sent := [Stmt.exec "BEGIN", Stmt.exec "INSERT INTO t VALUES (5), (6), (7)",
                 Stmt.exec "CREATE TABLE t(id INT)"],
        cleared := 2 }
      .invalid_argument rfl rfl rfl).2,
   congrArg Prod.fst ((C14_raise_rolls_back_and_rethrows sampleServer (sampleWorld 9)).2
      "CREATE TABLE t(id INT)" [] [[]] []
      { conn := { connection := some 8 }, sent := [Stmt.exec "BEGIN"], cleared := 1 }
      { conn := { connection := some 7 },
        sent := [Stmt.exec "BEGIN", Stmt.execParams "CREATE TABLE t(id INT)" []],
        cleared := 1 }
      .invalid_argument rfl rfl rfl).1,
   ((C14_raise_rolls_back_and_rethrows sampleServer (sampleWorld 9)).2
      "CREATE TABLE t(id INT)" [] [[]] []
      { conn := { connection := some 8 }, sent := [Stmt.exec "BEGIN"], cleared := 1 }
      { conn := { connection := some 7 },
        sent := [Stmt.exec "BEGIN", Stmt.execParams "CREATE TABLE t(id INT)" []],
        cleared := 1 }
      .invalid_argument rfl rfl rfl).2⟩

/-- Claim C15: for `executeTransaction` and `executeBatch`, for every item
list, if `beginTransaction` fails, the call returns false and the only
statement that can have been sent is the BEGIN of `beginTransaction` itself,
sent when the connection was healthy and not sent otherwise: no item, no
COMMIT and no ROLLBACK is sent. -/
theorem C15_begin_failure_sends_nothing (L : Libpq σ) (w : World σ)
    (queries : List String) (baseQuery : String) (paramsList : List (List String))
    (hbegin : (w.beginTransaction L).1 = false) :
    executeTransaction L w queries = (.ok false, (w.beginTransaction L).2) ∧
    executeBatch L w baseQuery paramsList = (.ok false, (w.beginTransaction L).2) ∧
    (w.beginTransaction L).2.sent =
      w.sent ++ (if w.conn.isOK L = true then [Stmt.exec "BEGIN"] else []) ∧
    (w.conn.isOK L = false → (w.beginTransaction L).2 = w) := by
  refine ⟨?_, ?_, ?_, ?_⟩
  · unfold executeTransaction
    simp [hbegin]
  · unfold executeBatch
    simp [hbegin]
  · exact World.control_sent L w "BEGIN"
  · intro h
    simp [World.beginTransaction, World.control, h]

theorem C15_begin_failure_sends_nothing_witness :
    executeTransaction sampleServer (sampleWorld 0) ["SELECT id, name FROM users"] =
      (.ok false, sampleWorld 0) ∧
    (executeTransaction sampleServer (sampleWorld 1)
      ["SELECT id, name FROM users"]).1 = .ok false ∧
    (executeTransaction sampleServer (sampleWorld 1)
      ["SELECT id, name FROM users"]).2.sent = [Stmt.exec "BEGIN"] ∧
    (executeBatch sampleServer (sampleWorld 1) "INSERT INTO users VALUES ($1, $2)"
      [["1", "Ann"]]).2.sent = [Stmt.exec "BEGIN"] :=
  ⟨(C15_begin_failure_sends_nothing sampleServer (sampleWorld 0)
      ["SELECT id, name FROM users"] "" [] rfl).1,
   congrArg Prod.fst (C15_begin_failure_sends_nothing sampleServer (sampleWorld 1)
      ["SELECT id, name FROM users"] "" [] rfl).1,
   congrArg (fun r => r.2.sent) (C15_begin_failure_sends_nothing sampleServer
      (sampleWorld 1) ["SELECT id, name FROM users"] "" [] rfl).1,
   congrArg (fun r => r.2.sent) (C15_begin_failure_sends_nothing sampleServer
      (sampleWorld 1) [] "INSERT INTO users VALUES ($1, $2)" [["1", "Ann"]] rfl).2.1⟩

namespace PostgreSQLConnection

/-- Claim C17: for every Connection Handle state, `disconnect()` followed by
`disconnect()` leaves the handle as a single `disconnect()` does, with
`isConnected()` and `isOK()` false and `getLastError()` the fixed text "No
connection established"; the second call closes nothing, and over the two
calls the session is closed exactly once if one was held before the first call
and never otherwise. -/
theorem C17_disconnect_idempotent (L : Libpq σ) (self : PostgreSQLConnection σ)
    (finished : Nat) :
    ((self.disconnect finished).1.disconnect (self.disconnect finished).2).1 =
      (self.disconnect finished).1 ∧
    (self.disconnect finished).1.isConnected = false ∧
    (self.disconnect finished).1.isOK L = false ∧
    (self.disconnect finished).1.getLastError L = "No connection established" ∧
    ((self.disconnect finished).1.disconnect (self.disconnect finished).2).2 =
      (self.disconnect finished).2 ∧
    (self.disconnect finished).2 = finished + (if self.isConnected then 1 else 0) := by
  cases hc : self.connection with
  | none =>
    have h1 : self.disconnect finished = (self, finished) := by
      simp [disconnect, hc]
    rw [h1]
    simp [disconnect, isConnected, isOK, getLastError, hc]
  | some s =>
    have h1 : self.disconnect finished = ({ connection := none }, finished + 1) := by
      simp [disconnect, hc]
    rw [h1]
    simp [disconnect, isConnected, isOK, getLastError, hc]

end PostgreSQLConnection


/-! ## Theorems: the Native Result Guard -/

namespace Guards

/-- The invariant on the two observations it depends on: who holds what, and
the log. -/
theorem inv_iff (s : Guards) :
    s.Inv ↔ s.freed.Nodup ∧ (∀ g r, s.held g = some r → r ∉ s.freed) ∧
      (∀ g h r, s.held g = some r → s.held h = some r → g = h) := Iff.rfl

theorem inv_of_set_and_free (s t : Guards) (g : Nat) (new : Option PGresultRef)
    (hinv : s.Inv) (hfresh : s.Fresh new)
    (hheld : ∀ h, t.held h = if h = g then new else s.held h)
    (hfreed : t.freed = s.freed ++ (s.held g).toList) : t.Inv := by
  obtain ⟨hnd, hnf, huniq⟩ := hinv
  have hold : ∀ r, s.held g = some r → ∀ h, h ≠ g → s.held h ≠ some r := by
    intro r hr h hne hh
    exact hne (huniq h g r hh hr)
  refine ⟨?_, ?_, ?_⟩
  · rw [hfreed]
    cases hg : s.held g with
    | none => simpa using hnd
    | some old =>
      simp only [Option.toList_some]
      rw [List.nodup_append]
      refine ⟨hnd, List.nodup_singleton old, ?_⟩
      intro a ha hb
      simp only [List.mem_singleton] at hb
      subst hb
      exact hnf g a hg ha
  · intro h r hh
    rw [hheld] at hh
    rw [hfreed, List.mem_append]
    rintro (hin | hin)
    · by_cases hhg : h = g
      · rw [if_pos hhg] at hh
        exact (hfresh r hh).1 hin
      · rw [if_neg hhg] at hh
        exact hnf h r hh hin
    · cases hg : s.held g with
      | none => rw [hg] at hin; simp at hin
      | some old =>
        rw [hg] at hin
        simp only [Option.toList_some, List.mem_singleton] at hin
        subst hin
        by_cases hhg : h = g
        · rw [if_pos hhg] at hh
          exact (hfresh r hh).2 g hg
        · rw [if_neg hhg] at hh
          exact hold r hg h hhg hh
  · intro h1 h2 r hh1 hh2
    rw [hheld] at hh1 hh2
    by_cases e1 : h1 = g <;> by_cases e2 : h2 = g
    · rw [e1, e2]
    · rw [if_pos e1] at hh1
      rw [if_neg e2] at hh2
      exact absurd hh2 ((hfresh r hh1).2 h2)
    · rw [if_neg e1] at hh1
      rw [if_pos e2] at hh2
      exact absurd hh1 ((hfresh r hh2).2 h1)
    · rw [if_neg e1] at hh1
      rw [if_neg e2] at hh2
      exact huniq h1 h2 r hh1 hh2

theorem inv_of_drop (s t : Guards) (g : Nat) (hinv : s.Inv)
    (hheld : ∀ h, t.held h = if h = g then none else s.held h)
    (hfreed : t.freed = s.freed) : t.Inv := by
  obtain ⟨hnd, hnf, huniq⟩ := hinv
  refine ⟨hfreed ▸ hnd, ?_, ?_⟩
  · intro h r hh
    rw [hheld] at hh
    rw [hfreed]
    by_cases hhg : h = g
    · rw [if_pos hhg] at hh; simp at hh
    · rw [if_neg hhg] at hh; exact hnf h r hh
  · intro h1 h2 r hh1 hh2
    rw [hheld] at hh1 hh2
    by_cases e1 : h1 = g
    · rw [if_pos e1] at hh1; simp at hh1
    · by_cases e2 : h2 = g
      · rw [if_pos e2] at hh2; simp at hh2
      · rw [if_neg e1] at hh1
        rw [if_neg e2] at hh2
        exact huniq h1 h2 r hh1 hh2

theorem inv_of_transfer (s t : Guards) (g other : Nat) (hne : g ≠ other) (hinv : s.Inv)
    (hheld : ∀ h, t.held h =
      if h = g then s.held other else if h = other then none else s.held h)
    (hfreed : t.freed = s.freed ++ (s.held g).toList) : t.Inv := by
  obtain ⟨hnd, hnf, huniq⟩ := hinv
  have hold : ∀ r, s.held g = some r → ∀ h, h ≠ g → s.held h ≠ some r := by
    intro r hr h hne1 hh
    exact hne1 (huniq h g r hh hr)
  have hsrc : ∀ h r, t.held h = some r → ∃ k, k ≠ g ∧ s.held k = some r ∧
      (h = g → k = other) ∧ (h ≠ g → k = h ∧ h ≠ other) := by
    intro h r hh
    rw [hheld] at hh
    by_cases e1 : h = g
    · rw [if_pos e1] at hh
      exact ⟨other, fun e => hne e.symm, hh, fun _ => rfl, fun e => absurd e1 e⟩
    · rw [if_neg e1] at hh
      by_cases e2 : h = other
      · rw [if_pos e2] at hh; simp at hh
      · rw [if_neg e2] at hh
        exact ⟨h, e1, hh, fun e => absurd e e1, fun _ => ⟨rfl, e2⟩⟩
  refine ⟨?_, ?_, ?_⟩
  · rw [hfreed]
    cases hg : s.held g with
    | none => simpa using hnd
    | some old =>
      simp only [Option.toList_some]
      rw [List.nodup_append]
      refine ⟨hnd, List.nodup_singleton old, ?_⟩
      intro a ha hb
      simp only [List.mem_singleton] at hb
      subst hb
      exact hnf g a hg ha
  · intro h r hh
    obtain ⟨k, hkg, hk, _, _⟩ := hsrc h r hh
    rw [hfreed, List.mem_append]
    rintro (hin | hin)
    · exact hnf k r hk hin
    · cases hg : s.held g with
      | none => rw [hg] at hin; simp at hin
      | some old =>
        rw [hg] at hin
        simp only [Option.toList_some, List.mem_singleton] at hin
        subst hin
        exact hold r hg k hkg hk
  · intro h1 h2 r hh1 hh2
    obtain ⟨k1, _, hk1, a1, b1⟩ := hsrc h1 r hh1
    obtain ⟨k2, _, hk2, a2, b2⟩ := hsrc h2 r hh2
    have hk : k1 = k2 := huniq k1 k2 r hk1 hk2
    by_cases e1 : h1 = g <;> by_cases e2 : h2 = g
    · rw [e1, e2]
    · have := a1 e1
      have h3 := b2 e2
      rw [← hk, this] at h3
      exact absurd h3.1.symm h3.2
    · have := a2 e2
      have h3 := b1 e1
      rw [hk, this] at h3
      exact absurd h3.1.symm h3.2
    · rw [← (b1 e1).1, ← (b2 e2).1, hk]

theorem held_put (objects : Nat → Option PGResultWrapper) (freed : List PGresultRef)
    (g : Nat) (v : Option PGResultWrapper) (h : Nat) :
    held { objects := put objects g v, freed := freed } h =
      if h = g then (match v with | some a => a.result | none => none)
      else held { objects := objects, freed := freed } h := by
  unfold held put
  by_cases e : h = g <;> simp [e]

theorem held_of_not_alive (s : Guards) (g : Nat) (h : s.objects g = none) :
    s.held g = none := by
  simp [held, h]

theorem inv_step (s : Guards) (op : GuardOp) (hinv : s.Inv) (hadm : s.Admissible op) :
    (s.step op).Inv := by
  cases op with
  | construct g res =>
    obtain ⟨hdead, hfresh⟩ := hadm
    refine inv_of_set_and_free s _ g res hinv hfresh ?_ ?_
    · intro h
      simp only [step, PGResultWrapper.make]
      rw [held_put]
    · simp [step, held_of_not_alive s g hdead]
  | moveConstruct g other =>
    obtain ⟨hdead, halive⟩ := hadm
    obtain ⟨o, ho⟩ := Option.isSome_iff_exists.mp halive
    have hne : g ≠ other := by
      intro e; rw [e, ho] at hdead; simp at hdead
    refine inv_of_transfer s _ g other hne hinv ?_ ?_
    · intro h
      simp only [step, ho, PGResultWrapper.moveConstruct]
      rw [held_put, held_put]
      simp [held, ho]
    · simp [step, ho, held_of_not_alive s g hdead]
  | moveAssign g other =>
    obtain ⟨hg, halive⟩ := hadm
    obtain ⟨a, ha⟩ := Option.isSome_iff_exists.mp hg
    obtain ⟨o, ho⟩ := Option.isSome_iff_exists.mp halive
    by_cases hne : g = other
    · subst hne
      have hsame : s.step (.moveAssign g g) = s := by simp [step, ha]
      rw [hsame]
      exact hinv
    · refine inv_of_transfer s _ g other hne hinv ?_ ?_
      · intro h
        simp only [step, ha, ho, hne, if_false, PGResultWrapper.moveAssign]
        rw [held_put, held_put]
        simp [held, ho]
      · simp only [step, ha, ho, hne, if_false, PGResultWrapper.moveAssign, held,
          PGResultWrapper.PQclear]
        cases a.result <;> simp
  | release g =>
    obtain ⟨a, ha⟩ := Option.isSome_iff_exists.mp hadm
    refine inv_of_drop s _ g hinv ?_ ?_
    · intro h
      simp only [step, ha, PGResultWrapper.release]
      rw [held_put]
    · simp [step, ha]
  | reset g res =>
    obtain ⟨hg, hfresh⟩ := hadm
    obtain ⟨a, ha⟩ := Option.isSome_iff_exists.mp hg
    refine inv_of_set_and_free s _ g res hinv hfresh ?_ ?_
    · intro h
      simp only [step, ha, PGResultWrapper.reset]
      rw [held_put]
      rfl
    · simp only [step, ha, PGResultWrapper.reset, held, PGResultWrapper.PQclear]
      cases a.result <;> simp
  | destroy g =>
    obtain ⟨a, ha⟩ := Option.isSome_iff_exists.mp hadm
    refine inv_of_set_and_free s _ g none hinv (fun r hr => by simp at hr) ?_ ?_
    · intro h
      simp only [step, ha]
      rw [held_put]
      rfl
    · simp only [step, ha, PGResultWrapper.destroy, held, PGResultWrapper.PQclear]
      cases a.result <;> simp

theorem inv_init : init.Inv := by
  refine ⟨List.nodup_nil, ?_, ?_⟩
  · intro g r h; simp [held, init] at h
  · intro g h r hg; simp [held, init] at hg

theorem inv_run (s : Guards) (ops : List GuardOp) (hinv : s.Inv)
    (hadm : s.AdmissibleRun ops) : (s.run ops).Inv := by
  induction ops generalizing s with
  | nil => exact hinv
  | cons op rest ih =>
    obtain ⟨h1, h2⟩ := hadm
    exact ih (s.step op) (inv_step s op hinv h1) h2

theorem held_after_construct (g : Nat) (res : Option PGresultRef) (h : Nat) :
    (init.step (.construct g res)).held h = if h = g then res else none := by
  simp only [step, PGResultWrapper.make]
  rw [held_put]
  rfl

/-- Claim C16 as written fails when `reset` is given the reference that the
guard itself holds, which no other guard owns: the reference is freed by
`reset` and freed again by the destructor; it fails as well when two guards
are constructed with one reference. -/
theorem C16_self_reset_counterexample :
    ClaimAdmissibleRun init
      [.construct 0 (some 7), .reset 0 (some 7), .destroy 0] ∧
    (init.run [.construct 0 (some 7), .reset 0 (some 7), .destroy 0]).freed = [7, 7] ∧
    ¬ (init.run [.construct 0 (some 7), .reset 0 (some 7), .destroy 0]).freed.Nodup ∧
    ClaimAdmissibleRun init
      [.construct 0 (some 7), .construct 1 (some 7), .destroy 0, .destroy 1] ∧
    (init.run [.construct 0 (some 7), .construct 1 (some 7), .destroy 0,
      .destroy 1]).freed = [7, 7] := by
  refine ⟨⟨rfl, ⟨rfl, ?_⟩, rfl, trivial⟩, by decide, by decide,
    ⟨rfl, rfl, rfl, rfl, trivial⟩, by decide⟩
  intro r h _ hne
  rw [held_after_construct, if_neg hne]
  simp

/-- Claim C16, amended: for every sequence of Native Result Guard operations
(construction, release, reset, move construction, move assignment,
destruction) on guards that are alive, in which every reference handed to a
constructor or to `reset` is fresh (held by no guard alive, the guard itself
included, and not freed before), each native result reference is freed at most
once; `release()` returns the held reference and empties the guard without
freeing anything; `reset(r)` frees the reference held before, if any, and
leaves the guard holding `r`. -/
theorem C16_guard_frees_at_most_once :
    (∀ ops : List GuardOp, init.AdmissibleRun ops → (init.run ops).freed.Nodup) ∧
    (∀ a : PGResultWrapper, a.release.1 = a.result ∧ a.release.2.result = none) ∧
    (∀ (s : Guards) (g : Nat), (s.step (.release g)).freed = s.freed) ∧
    (∀ (a : PGResultWrapper) (res : Option PGresultRef) (freed : List PGresultRef),
      (a.reset res freed).1.result = res ∧
      (a.reset res freed).2 = freed ++ a.result.toList) := by
  refine ⟨fun ops h => (inv_run init ops inv_init h).1, fun a => ⟨rfl, rfl⟩, ?_, ?_⟩
  · intro s g
    simp only [step]
    split <;> rfl
  · intro a res freed
    refine ⟨rfl, ?_⟩
    simp only [PGResultWrapper.reset, PGResultWrapper.PQclear]
    cases a.result <;> simp

theorem C16_guard_frees_at_most_once_witness :
    (init.run [.construct 0 (some 7), .reset 0 (some 8), .release 0,
      .destroy 0]).freed.Nodup ∧
    (init.run [.construct 0 (some 7), .reset 0 (some 8), .release 0,
      .destroy 0]).freed = [7] := by
  refine ⟨C16_guard_frees_at_most_once.1
    [.construct 0 (some 7), .reset 0 (some 8), .release 0, .destroy 0]
    ⟨⟨rfl, ?_⟩, ⟨rfl, ?_⟩, rfl, rfl, trivial⟩, by decide⟩
  · intro r hr
    refine ⟨by simp [init], fun g => by simp [held, init]⟩
  · intro r hr
    have h8 : r = 8 := by simpa using hr.symm
    subst h8
    refine ⟨by simp [step, init], fun g => ?_⟩
    rw [held_after_construct]
    by_cases e : g = 0 <;> simp [e]

end Guards

end PqxxExecutor
